import Mathlib

/-!
# Verification of the Chicago_BI report-derivation pipeline

A shallow embedding of the report builders in `src/cmd/reports`
(`trip_reports.go` and `disadvantaged_permits.go`) of the Chicago_BI
repository, together with proofs about the embedded definitions.

Modelling conventions:
* Postgres `DATE` values are modelled as `Int` day numbers (days since
  1970-01-01), which is Postgres's own internal representation of dates.
* Postgres `TIMESTAMP WITH TIME ZONE` values are modelled as a civil
  calendar date plus microseconds-of-day, already resolved to the session
  time zone (time-zone resolution is outside the claims considered here).
* `FLOAT8` columns are modelled as rationals (`ℚ`); the properties proved
  (threshold comparisons, ordering, averages of integer counts) are
  insensitive to this choice of ordered field.
* Nullable SQL columns are modelled as `Option` values; SQL three-valued
  comparison with `NULL` yields "not matched" everywhere the builders
  compare columns, which the embedding reflects.
* A SQL statement is embedded as its generated text together with its
  semantics: a guard (the conditions under which the engine accepts it,
  extended with an injected-fault oracle modelling engine-level failures
  such as the malformed-column fault of the atomicity scenario) and a
  total state transformer applied when the guard holds.
-/

namespace ChicagoBI

/-! ## Calendar model (civil dates and Postgres day numbers) -/

/-- A civil (proleptic Gregorian) calendar date. -/
structure CivilDate where
  year : Int
  month : Nat
  day : Nat
deriving DecidableEq, Repr

/-- A `TIMESTAMP WITH TIME ZONE` value resolved to the session time zone:
a civil date plus the microseconds elapsed since that date's midnight. -/
structure Timestamp where
  date : CivilDate
  microsOfDay : Nat
deriving DecidableEq, Repr

/-- Days since 1970-01-01 of a civil date (Howard Hinnant's
`days_from_civil` algorithm, the standard proleptic-Gregorian day count
used by relational engines). -/
def CivilDate.toDays (c : CivilDate) : Int :=
  let y : Int := if c.month ≤ 2 then c.year - 1 else c.year
  let era : Int := (if 0 ≤ y then y else y - 399) / 400
  let yoe : Int := y - era * 400
  let mp : Int := ((c.month : Int) + 9) % 12
  let doy : Int := (153 * mp + 2) / 5 + (c.day : Int) - 1
  let doe : Int := yoe * 365 + yoe / 4 - yoe / 100 + doy
  era * 146097 + doe - 719468

/-- ISO day of week (1 = Monday .. 7 = Sunday) of a day number.
1970-01-01 (day 0) was a Thursday. -/
def isoDayOfWeek (n : Int) : Int :=
  (n + 3) % 7 + 1

/-- Day number of the ISO week start (the most recent Monday on or before
`n`); this is what `DATE_TRUNC('week', …)` yields, as a date. -/
def mondayOnOrBefore (n : Int) : Int :=
  n - (n - 4) % 7

/-- The `day` column expression `"trip_start_timestamp"::date`. -/
def tsCastDate (t : Timestamp) : Int :=
  t.date.toDays

/-- The `week_start` column expression
`(DATE_TRUNC('week', "trip_start_timestamp") - INTERVAL '1 day')::date`. -/
def tsWeekStartCol (t : Timestamp) : Int :=
  mondayOnOrBefore t.date.toDays - 1

/-- The `month_start` column expression
`DATE_TRUNC('month', "trip_start_timestamp")::date`: the first day of the
timestamp's month. -/
def tsMonthStartCol (t : Timestamp) : Int :=
  CivilDate.toDays ⟨t.date.year, t.date.month, 1⟩

/-! ## Identifier sanitizer (`quoteIdentifier` in `disadvantaged_permits.go`) -/

/-- Does `p` occur as a prefix of `l`? (Boolean, on character lists.) -/
def hasPrefixList : List Char → List Char → Bool
  | [], _ => true
  | _ :: _, [] => false
  | p :: ps, c :: cs => p = c && hasPrefixList ps cs

/-- Go's `strings.ReplaceAll` on character lists: replace every
(non-overlapping, leftmost-first) occurrence of the pattern `pat` by
`rep`. Faithful to Go for the non-empty pattern used by the source. -/
def replaceAllList (pat rep : List Char) : List Char → List Char
  | [] => []
  | c :: cs =>
    if h : pat ≠ [] ∧ hasPrefixList pat (c :: cs) then
      rep ++ replaceAllList pat rep ((c :: cs).drop pat.length)
    else
      c :: replaceAllList pat rep cs
termination_by l => l.length
decreasing_by
  · simp only [List.length_drop]
    cases pat with
    | nil => exact absurd rfl h.1
    | cons p ps => simp [List.length_cons]; omega
  · simp [List.length_cons]

/-- `quoteIdentifier` from `disadvantaged_permits.go`:
`return `"` + strings.ReplaceAll(name, `"`, `""`) + `"``. -/
def quoteIdentifier (name : String) : String :=
  String.mk ('"' :: replaceAllList ['"'] ['"', '"'] name.data ++ ['"'])

/-- Specification-side description of the sanitizer's body: double every
embedded double-quote character. -/
def doubleQuotes : List Char → List Char
  | [] => []
  | c :: cs => if c = '"' then '"' :: '"' :: doubleQuotes cs else c :: doubleQuotes cs

/-- The SQL lexer for the interior of a quoted identifier: consume
characters after the opening quote, reading `""` as an escaped quote,
until the closing quote; return the identifier's name and the rest of
the input. -/
def scanQuotedIdent : List Char → Option (List Char × List Char)
  | [] => none
  | c :: cs =>
    if c = '"' then
      if cs.head? = some '"' then
        (scanQuotedIdent cs.tail).map (fun p => ('"' :: p.1, p.2))
      else
        some ([], cs)
    else
      (scanQuotedIdent cs).map (fun p => (c :: p.1, p.2))
termination_by l => l.length
decreasing_by
  · simp [List.length_tail]
    omega
  · simp

/-! ## Source-table row types (schemas owned by the collectors) -/

/-- A row of `covid` (collector schema in `cmd/collectors/covid.go`):
`zip_code VARCHAR(9) NOT NULL, week_start DATE NOT NULL, week_end DATE NOT
NULL, case_rate_weekly FLOAT8, percent_tested_positive_weekly FLOAT8`. -/
structure CovidRow where
  id : Int
  zip_code : String
  week_start : Int
  week_end : Int
  case_rate_weekly : Option ℚ
  percent_tested_positive_weekly : Option ℚ
deriving DecidableEq, Repr

/-- A row of `taxi_trips` (collector schema in `cmd/collectors/trips.go`). -/
structure TaxiTripRow where
  id : Int
  trip_id : Option String
  trip_start_timestamp : Option Timestamp
  trip_end_timestamp : Option Timestamp
  pickup_centroid_latitude : Option ℚ
  pickup_centroid_longitude : Option ℚ
  dropoff_centroid_latitude : Option ℚ
  dropoff_centroid_longitude : Option ℚ
  pickup_community_area : Option String
  dropoff_community_area : Option String
  pickup_zip_code : Option String
  dropoff_zip_code : Option String
  trip_type : Option String
deriving DecidableEq, Repr

/-- A row of `ccvi` (collector schema in `permits-service/main.go`). -/
structure CcviRow where
  id : Int
  geography_type : Option String
  community_area_or_zip : Option String
  community_area_name : Option String
  ccvi_score : Option ℚ
  ccvi_category : Option String
deriving DecidableEq, Repr

/-- A row of `public_health` (collector schema in
`cmd/collectors/trips.go`): `community_area VARCHAR(255) PRIMARY KEY,
below_poverty_level FLOAT8, unemployment FLOAT8, per_capita_income FLOAT8`. -/
structure PublicHealthRow where
  community_area : String
  below_poverty_level : Option ℚ
  unemployment : Option ℚ
  per_capita_income : Option ℚ
deriving DecidableEq, Repr

/-- A row of `building_permits` (collector schema in
`cmd/collectors/permits.go`). -/
structure BuildingPermitRow where
  id : String
  permit_id : Option String
  permit_type : Option String
  issue_date : Option String
  street_number : Option String
  street_name : Option String
  latitude : Option ℚ
  longitude : Option ℚ
  community_area : Option String
  census_tract : Option String
deriving DecidableEq, Repr

/-! ## Report-table row types (owned by the builders)

Column-level `ALTER TABLE … ADD COLUMN` steps are modelled value-wise: the
row type carries every column the builder will have added by the end of the
transaction, the `CREATE TABLE … AS TABLE …` statement initialises the
not-yet-added columns with placeholder values, and each `ADD COLUMN`
statement resets its column to the declared SQL `DEFAULT` (or `NULL`). -/

/-- A row of `covid_rep_cats`: `covid` plus `covid_cat VARCHAR(6)`. -/
structure CovidRepCatRow where
  id : Int
  zip_code : String
  week_start : Int
  week_end : Int
  case_rate_weekly : Option ℚ
  percent_tested_positive_weekly : Option ℚ
  covid_cat : Option String
deriving DecidableEq, Repr

/-- A row of `req_1a_covid_alerts_drivers`: `taxi_trips` plus the derived
airport flags, time buckets and joined COVID categories. -/
structure AlertsRow where
  id : Int
  trip_id : Option String
  trip_start_timestamp : Option Timestamp
  trip_end_timestamp : Option Timestamp
  pickup_centroid_latitude : Option ℚ
  pickup_centroid_longitude : Option ℚ
  dropoff_centroid_latitude : Option ℚ
  dropoff_centroid_longitude : Option ℚ
  pickup_community_area : Option String
  dropoff_community_area : Option String
  pickup_zip_code : Option String
  dropoff_zip_code : Option String
  trip_type : Option String
  airport_dropoff : Bool
  airport_pickup : Bool
  day : Option Int
  week_start : Option Int
  month_start : Option Int
  pickup_covid_cat : Option String
  dropoff_covid_cat : Option String
deriving DecidableEq, Repr

/-- A row of `req_2_airport_trips`: `covid_rep_cats` plus
`trips_to_airport` and `trips_from_airport` (INTEGER DEFAULT 0). -/
structure AirportTripsRow where
  id : Int
  zip_code : String
  week_start : Int
  week_end : Int
  case_rate_weekly : Option ℚ
  percent_tested_positive_weekly : Option ℚ
  covid_cat : Option String
  trips_to_airport : Int
  trips_from_airport : Int
deriving DecidableEq, Repr

/-- A row of `req_1b_covid_alerts_residents`: `covid_rep_cats` plus
`weekly_dropoffs` and `weekly_pickups` (INTEGER DEFAULT 0). -/
structure ResidentsRow where
  id : Int
  zip_code : String
  week_start : Int
  week_end : Int
  case_rate_weekly : Option ℚ
  percent_tested_positive_weekly : Option ℚ
  covid_cat : Option String
  weekly_dropoffs : Int
  weekly_pickups : Int
deriving DecidableEq, Repr

/-- A row of `weekly_trips_by_pickup_and_zip`
(`SELECT week_start, "pickup_zip_code", COUNT(*) AS weekly_pickups`). -/
structure WeeklyPickupRow where
  week_start : Option Int
  pickup_zip_code : Option String
  weekly_pickups : Int
deriving DecidableEq, Repr

/-- A row of `weekly_trips_by_dropoff_and_zip`. -/
structure WeeklyDropoffRow where
  week_start : Option Int
  dropoff_zip_code : Option String
  weekly_dropoffs : Int
deriving DecidableEq, Repr

/-- A row of `req_4_daily_trips` (`zip_code, day, trips`). -/
structure DailyTripsRow where
  zip_code : Option String
  day : Option Int
  trips : ℚ
deriving DecidableEq, Repr

/-- A row of `req_4_weekly_trips` (`zip_code, week_start, trips`). -/
structure WeeklyTripsRow where
  zip_code : Option String
  week_start : Option Int
  trips : ℚ
deriving DecidableEq, Repr

/-- A row of `req_4_monthly_trips` (`zip_code, month_start, trips`). -/
structure MonthlyTripsRow where
  zip_code : Option String
  month_start : Option Int
  trips : ℚ
deriving DecidableEq, Repr

/-- A row of `req_3_ccvi_trips`: the `ccvi` columns plus `week_start` and
`weekly_trips`. -/
structure CcviTripsRow where
  id : Int
  geography_type : Option String
  community_area_or_zip : Option String
  community_area_name : Option String
  ccvi_score : Option ℚ
  ccvi_category : Option String
  week_start : Option Int
  weekly_trips : Int
deriving DecidableEq, Repr

/-- A row of `disadvantaged`: `public_health` plus `zip_code VARCHAR(9)
DEFAULT ''` and the three boolean flags (DEFAULT FALSE). -/
structure DisadvantagedRow where
  community_area : String
  below_poverty_level : Option ℚ
  unemployment : Option ℚ
  per_capita_income : Option ℚ
  zip_code : String
  top_5_poverty : Bool
  top_5_unemployment : Bool
  disadvantaged : Bool
deriving DecidableEq, Repr

/-- A row of `report_7_disadv_perm`: `building_permits` plus a spatial
point, `zip_code VARCHAR(9) DEFAULT ''` and the three flags; the
`disadvantaged` column is renamed `waived_fee` by the final statement, and
is called `waived_fee` here throughout (the rename is value-preserving). -/
structure DisadvPermRow where
  id : String
  permit_id : Option String
  permit_type : Option String
  issue_date : Option String
  street_number : Option String
  street_name : Option String
  latitude : Option ℚ
  longitude : Option ℚ
  community_area : Option String
  census_tract : Option String
  point : Option (ℚ × ℚ)
  zip_code : String
  top_5_poverty : Bool
  top_5_unemployment : Bool
  waived_fee : Bool
deriving DecidableEq, Repr

/-! ## Database state -/

/-- The relational store: each table is `none` when absent from the
catalog, `some rows` when present. Table names follow the constants at
the top of `trip_reports.go` / `disadvantaged_permits.go`. -/
structure DBState where
  covid : Option (List CovidRow)
  taxi_trips : Option (List TaxiTripRow)
  ccvi : Option (List CcviRow)
  public_health : Option (List PublicHealthRow)
  building_permits : Option (List BuildingPermitRow)
  covid_rep_cats : Option (List CovidRepCatRow)
  req_1a_covid_alerts_drivers : Option (List AlertsRow)
  req_1b_covid_alerts_residents : Option (List ResidentsRow)
  req_2_airport_trips : Option (List AirportTripsRow)
  req_2_airport_trips_sorted : Option (List AirportTripsRow)
  req_3_ccvi_trips : Option (List CcviTripsRow)
  req_3_ccvi_trips_sorted : Option (List CcviTripsRow)
  req_4_daily_trips : Option (List DailyTripsRow)
  req_4_weekly_trips : Option (List WeeklyTripsRow)
  req_4_monthly_trips : Option (List MonthlyTripsRow)
  weekly_trips_by_pickup_and_zip : Option (List WeeklyPickupRow)
  weekly_trips_by_dropoff_and_zip : Option (List WeeklyDropoffRow)
  disadvantaged : Option (List DisadvantagedRow)
  report_7_disadv_perm : Option (List DisadvPermRow)
deriving DecidableEq, Repr

/-- Row count of a named table, `none` when the table does not exist;
the dynamic-lookup interface used by `ensureTableReady`. -/
def DBState.tableCount (db : DBState) : String → Option Nat
  | "covid" => db.covid.map List.length
  | "taxi_trips" => db.taxi_trips.map List.length
  | "ccvi" => db.ccvi.map List.length
  | "public_health" => db.public_health.map List.length
  | "building_permits" => db.building_permits.map List.length
  | "covid_rep_cats" => db.covid_rep_cats.map List.length
  | "req_1a_covid_alerts_drivers" => db.req_1a_covid_alerts_drivers.map List.length
  | "req_1b_covid_alerts_residents" => db.req_1b_covid_alerts_residents.map List.length
  | "req_2_airport_trips" => db.req_2_airport_trips.map List.length
  | "req_3_ccvi_trips" => db.req_3_ccvi_trips.map List.length
  | "req_4_daily_trips" => db.req_4_daily_trips.map List.length
  | "req_4_weekly_trips" => db.req_4_weekly_trips.map List.length
  | "req_4_monthly_trips" => db.req_4_monthly_trips.map List.length
  | "weekly_trips_by_pickup_and_zip" => db.weekly_trips_by_pickup_and_zip.map List.length
  | "weekly_trips_by_dropoff_and_zip" => db.weekly_trips_by_dropoff_and_zip.map List.length
  | "disadvantaged" => db.disadvantaged.map List.length
  | "report_7_disadv_perm" => db.report_7_disadv_perm.map List.length
  | _ => none

/-! ## SQL building blocks -/

/-- SQL `=` between two nullable values: `NULL` never compares equal. -/
def sqlEq {α : Type} [DecidableEq α] : Option α → Option α → Bool
  | some a, some b => decide (a = b)
  | _, _ => false

/-- `GROUP BY key` with `COUNT(*)`: one entry per distinct key (first
occurrence order), with the number of rows having that key. -/
def groupCountBy {α κ : Type} [DecidableEq κ] (key : α → κ) (xs : List α) :
    List (κ × Nat) :=
  (xs.map key).dedup.map (fun k => (k, xs.countP (fun x => decide (key x = k))))

/-- SQL `MAX` over a nullable column: `NULL` inputs are ignored and the
maximum of no values is `NULL`. -/
def sqlMax (xs : List (Option Int)) : Option Int :=
  match xs.filterMap id with
  | [] => none
  | y :: ys => some (ys.foldl max y)

/-- Lookup of a grouped count by key (used for `UPDATE … FROM (SELECT …
GROUP BY …)` joins; the group key is unique within the grouped list). -/
def groupLookup {κ : Type} [DecidableEq κ] (groups : List (κ × Nat)) (k : κ) :
    Option Nat :=
  (groups.find? (fun g => decide (g.1 = k))).map (fun g => g.2)

/-- Hinnant's `civil_from_days`: the civil date of a day number (inverse
of `CivilDate.toDays`); used for month arithmetic on dates. -/
def civilFromDays (z0 : Int) : CivilDate :=
  let z := z0 + 719468
  let era : Int := (if 0 ≤ z then z else z - 146096) / 146097
  let doe := z - era * 146097
  let yoe := (doe - doe / 1460 + doe / 36524 - doe / 146096) / 365
  let y := yoe + era * 400
  let doy := doe - (365 * yoe + yoe / 4 - yoe / 100)
  let mp := (5 * doy + 2) / 153
  let d := doy - (153 * mp + 2) / 5 + 1
  let m := if mp < 10 then mp + 3 else mp - 9
  ⟨if m ≤ 2 then y + 1 else y, m.toNat, d.toNat⟩

/-- `date + INTERVAL '1 month'` on a day-number date (the day of month is
1 wherever the builders use this, so no end-of-month clamping arises). -/
def sqlAddOneMonth (n : Int) : Int :=
  let c := civilFromDays n
  CivilDate.toDays
    ⟨(if c.month = 12 then c.year + 1 else c.year),
     (if c.month = 12 then 1 else c.month + 1), c.day⟩

/-! ## Statements, transactions and the readiness gate -/

/-- One generated SQL statement: its text, the conditions under which the
engine accepts it (extended by the fault oracle wrapped in by
`withFaults`), and its effect on the store when accepted. -/
structure SqlStmt where
  text : String
  accepts : DBState → Bool
  run : DBState → DBState

/-- Execute one statement: `none` models a statement-execution failure. -/
def SqlStmt.exec (s : SqlStmt) (db : DBState) : Option DBState :=
  if s.accepts db then some (s.run db) else none

/-- The builders' statement loop (`for _, stmt := range statements { if
_, execErr := tx.Exec(stmt); execErr != nil { tx.Rollback(); return
fmt.Errorf("failed to execute statement %q: %w", …) } }`): run statements
in order, stopping at the first failure with an error that carries the
failing statement's text. -/
def runStmts : List SqlStmt → DBState → Except String DBState
  | [], db => .ok db
  | s :: rest, db =>
    match s.exec db with
    | none => .error ("failed to execute statement " ++ s.text)
    | some db2 => runStmts rest db2

/-- A transaction around a statement list: commit the final state when
every statement succeeds, roll back to the initial state otherwise. -/
def runTx (stmts : List SqlStmt) (db : DBState) : DBState × Option String :=
  match runStmts stmts db with
  | .ok db2 => (db2, none)
  | .error e => (db, some e)

/-- Inject engine-level faults: statement `i` of the list additionally
fails whenever `flt i` holds (this models a statement "made to fail", e.g.
by a malformed column reference, per the spec's atomicity scenario). -/
def withFaults (flt : Nat → Bool) (stmts : List SqlStmt) : List SqlStmt :=
  stmts.enum.map (fun p =>
    { text := p.2.text
      accepts := fun db => !flt p.1 && p.2.accepts db
      run := p.2.run })

/-- The uninterrupted effect of a statement list (what a fully successful
transaction commits). -/
def applyStmts (stmts : List SqlStmt) (db : DBState) : DBState :=
  stmts.foldl (fun d s => s.run d) db

/-- Go's `%q` error-message formatting for the mandatory table name, as in
`fmt.Errorf("required table %q does not exist", tableName)`. -/
def requiredTableMissingMsg (tableName : String) : String :=
  "required table \"" ++ tableName ++ "\" does not exist"

/-- `fmt.Errorf("required table %q has no data to report on", tableName)`. -/
def requiredTableEmptyMsg (tableName : String) : String :=
  "required table \"" ++ tableName ++ "\" has no data to report on"

/-- `ensureTableReady` (`disadvantaged_permits.go`): the Readiness Gate's
single-table check. Returns `none` when the table exists and has at least
one row, and otherwise the descriptive error naming the table. -/
def ensureTableReady (db : DBState) (tableName : String) : Option String :=
  match db.tableCount tableName with
  | none => some (requiredTableMissingMsg tableName)
  | some 0 => some (requiredTableEmptyMsg tableName)
  | some (_ + 1) => none

/-! ## Table-name constants (from the `const` blocks of the two files) -/

def disadvantagedTable : String := "disadvantaged"
def publichealthTable : String := "public_health"
def buildingPermits : String := "building_permits"
def disadvantagedPermitsTable : String := "report_7_disadv_perm"
def ccviTable : String := "ccvi"
def covidTable : String := "covid"
def taxiTripsTable : String := "taxi_trips"
def covidRepCatsTable : String := "covid_rep_cats"
def covidAlertsTable : String := "req_1a_covid_alerts_drivers"
def covidAlertsResidents : String := "req_1b_covid_alerts_residents"
def reqAirportTripsTable : String := "req_2_airport_trips"
def CCVITable : String := "req_3_ccvi_trips"
def dailyTripsTable : String := "req_4_daily_trips"
def weeklyTripsTable : String := "req_4_weekly_trips"
def monthlyTripsTable : String := "req_4_monthly_trips"
def weeklyPickupTable : String := "weekly_trips_by_pickup_and_zip"
def weeklyDropoffTable : String := "weekly_trips_by_dropoff_and_zip"

/-! ## COVID category / trip-alert builder (`trip_reports.go`)

The statement texts are the `fmt.Sprintf` results from the source with
whitespace normalised to single spaces; identifiers are interpolated
through `quoteIdentifier` exactly as in the source. -/

/-- The hardcoded airport-adjacent ZIP set of the two airport-flag
`UPDATE` statements. -/
def airportZipCodes : List String := ["60666", "60656", "60665", "60638"]

/-- `"dropoff_zip_code" IN ('60666', '60656', '60665', '60638')` on a
nullable column (`NULL` is not in the set). -/
def zipInAirportSet : Option String → Bool
  | some z => airportZipCodes.contains z
  | none => false

/-- The single `CASE` expression of the category `UPDATE`:
`CASE WHEN "case_rate_weekly" < 50 THEN 'low' WHEN "case_rate_weekly" >=
50 AND "case_rate_weekly" < 100 THEN 'medium' WHEN "case_rate_weekly" >=
100 THEN 'high' END` (no `ELSE`: a `NULL` rate matches no branch and
yields `NULL`). -/
def covidCatCase (rate : Option ℚ) : Option String :=
  match rate with
  | none => none
  | some r =>
    if r < 50 then some "low"
    else if 50 ≤ r ∧ r < 100 then some "medium"
    else if 100 ≤ r then some "high"
    else none

/-- `CREATE TABLE "covid_rep_cats" AS TABLE "covid"` row image (the
`covid_cat` column is added by the following `ALTER`). -/
def repCatOfCovidRow (c : CovidRow) : CovidRepCatRow :=
  { id := c.id, zip_code := c.zip_code, week_start := c.week_start,
    week_end := c.week_end, case_rate_weekly := c.case_rate_weekly,
    percent_tested_positive_weekly := c.percent_tested_positive_weekly,
    covid_cat := none }

/-- `CREATE TABLE "req_1a_covid_alerts_drivers" AS TABLE "taxi_trips"`
row image (derived columns are added by the following `ALTER`s). -/
def alertsOfTripRow (t : TaxiTripRow) : AlertsRow :=
  { id := t.id, trip_id := t.trip_id,
    trip_start_timestamp := t.trip_start_timestamp,
    trip_end_timestamp := t.trip_end_timestamp,
    pickup_centroid_latitude := t.pickup_centroid_latitude,
    pickup_centroid_longitude := t.pickup_centroid_longitude,
    dropoff_centroid_latitude := t.dropoff_centroid_latitude,
    dropoff_centroid_longitude := t.dropoff_centroid_longitude,
    pickup_community_area := t.pickup_community_area,
    dropoff_community_area := t.dropoff_community_area,
    pickup_zip_code := t.pickup_zip_code,
    dropoff_zip_code := t.dropoff_zip_code, trip_type := t.trip_type,
    airport_dropoff := false, airport_pickup := false, day := none,
    week_start := none, month_start := none, pickup_covid_cat := none,
    dropoff_covid_cat := none }

/-- `CREATE TABLE "req_2_airport_trips" AS TABLE "covid_rep_cats"` row
image. -/
def airportOfRepCatRow (c : CovidRepCatRow) : AirportTripsRow :=
  { id := c.id, zip_code := c.zip_code, week_start := c.week_start,
    week_end := c.week_end, case_rate_weekly := c.case_rate_weekly,
    percent_tested_positive_weekly := c.percent_tested_positive_weekly,
    covid_cat := c.covid_cat, trips_to_airport := 0, trips_from_airport := 0 }

/-- `CREATE TABLE "req_1b_covid_alerts_residents" AS TABLE
"covid_rep_cats"` row image. -/
def residentsOfRepCatRow (c : CovidRepCatRow) : ResidentsRow :=
  { id := c.id, zip_code := c.zip_code, week_start := c.week_start,
    week_end := c.week_end, case_rate_weekly := c.case_rate_weekly,
    percent_tested_positive_weekly := c.percent_tested_positive_weekly,
    covid_cat := c.covid_cat, weekly_dropoffs := 0, weekly_pickups := 0 }

/-- `SELECT week_start, "pickup_zip_code", COUNT(*) AS weekly_pickups
FROM alerts GROUP BY week_start, "pickup_zip_code"`. -/
def buildWeeklyPickup (alerts : List AlertsRow) : List WeeklyPickupRow :=
  (groupCountBy (fun r => (r.week_start, r.pickup_zip_code)) alerts).map
    (fun g => { week_start := g.1.1, pickup_zip_code := g.1.2,
                weekly_pickups := (g.2 : Int) })

/-- `SELECT week_start, "dropoff_zip_code", COUNT(*) AS weekly_dropoffs
FROM alerts GROUP BY week_start, "dropoff_zip_code"`. -/
def buildWeeklyDropoff (alerts : List AlertsRow) : List WeeklyDropoffRow :=
  (groupCountBy (fun r => (r.week_start, r.dropoff_zip_code)) alerts).map
    (fun g => { week_start := g.1.1, dropoff_zip_code := g.1.2,
                weekly_dropoffs := (g.2 : Int) })

/-- The `req_4_daily_trips` `CREATE TABLE … AS` query: per-ZIP-per-day
counts, a single global next-day value (`MAX(day) + INTERVAL '1 day'`,
`NULL` when every `day` is `NULL`), and the per-ZIP average of the daily
counts, grouped by dropoff ZIP. -/
def buildDailyTrips (alerts : List AlertsRow) : List DailyTripsRow :=
  let dailyCounts := groupCountBy (fun r => (r.dropoff_zip_code, r.day)) alerts
  let dayValue := (sqlMax (alerts.map (fun r => r.day))).map (fun n => n + 1)
  (dailyCounts.map (fun g => g.1.1)).dedup.map (fun z =>
    let cs := dailyCounts.filter (fun g => decide (g.1.1 = z))
    { zip_code := z, day := dayValue,
      trips := ((cs.map (fun g => (g.2 : ℚ))).sum) / (cs.length : ℚ) })

/-- The `req_4_weekly_trips` query (same shape, bucketed by `week_start`,
next bucket `MAX(week_start) + INTERVAL '1 week'`). -/
def buildWeeklyTrips (alerts : List AlertsRow) : List WeeklyTripsRow :=
  let weeklyCounts := groupCountBy (fun r => (r.dropoff_zip_code, r.week_start)) alerts
  let weekValue := (sqlMax (alerts.map (fun r => r.week_start))).map (fun n => n + 7)
  (weeklyCounts.map (fun g => g.1.1)).dedup.map (fun z =>
    let cs := weeklyCounts.filter (fun g => decide (g.1.1 = z))
    { zip_code := z, week_start := weekValue,
      trips := ((cs.map (fun g => (g.2 : ℚ))).sum) / (cs.length : ℚ) })

/-- The `req_4_monthly_trips` query (bucketed by `month_start`, next
bucket `MAX(month_start) + INTERVAL '1 month'`). -/
def buildMonthlyTrips (alerts : List AlertsRow) : List MonthlyTripsRow :=
  let monthlyCounts := groupCountBy (fun r => (r.dropoff_zip_code, r.month_start)) alerts
  let monthValue := (sqlMax (alerts.map (fun r => r.month_start))).map sqlAddOneMonth
  (monthlyCounts.map (fun g => g.1.1)).dedup.map (fun z =>
    let cs := monthlyCounts.filter (fun g => decide (g.1.1 = z))
    { zip_code := z, month_start := monthValue,
      trips := ((cs.map (fun g => (g.2 : ℚ))).sum) / (cs.length : ℚ) })

/-- The `weekly_trips` CTE of the `req_3_ccvi_trips` query: pickup-side
and dropoff-side weekly per-ZIP counts, `UNION ALL`ed. Entries are
`(week_start, zip_code, trips)`. -/
def ccviWeeklyTripsUnion (alerts : List AlertsRow) :
    List (Option Int × Option String × Int) :=
  (groupCountBy (fun r => (r.week_start, r.pickup_zip_code)) alerts).map
    (fun g => (g.1.1, g.1.2, (g.2 : Int)))
  ++ (groupCountBy (fun r => (r.week_start, r.dropoff_zip_code)) alerts).map
    (fun g => (g.1.1, g.1.2, (g.2 : Int)))

/-- The `req_3_ccvi_trips` query: join ZIP-level high-category `ccvi` rows
to the weekly-trip union on ZIP and sum trips per (ccvi row, week). -/
def buildCcviTrips (ccviRows : List CcviRow) (alerts : List AlertsRow) :
    List CcviTripsRow :=
  let wt := ccviWeeklyTripsUnion alerts
  let base := ccviRows.filter (fun c =>
    decide (c.ccvi_category = some "HIGH") && decide (c.geography_type = some "ZIP"))
  let joined := base.flatMap (fun c =>
    (wt.filter (fun w => sqlEq w.2.1 c.community_area_or_zip)).map (fun w => (c, w)))
  (joined.map (fun p => (p.1, p.2.1))).dedup.map (fun k =>
    { id := k.1.id, geography_type := k.1.geography_type,
      community_area_or_zip := k.1.community_area_or_zip,
      community_area_name := k.1.community_area_name,
      ccvi_score := k.1.ccvi_score, ccvi_category := k.1.ccvi_category,
      week_start := k.2,
      weekly_trips := ((joined.filter (fun p => decide ((p.1, p.2.1) = k))).map
        (fun p => p.2.2.2)).sum })

/-- `ORDER BY "zip_code", "week_start"` on `req_2_airport_trips` rows. -/
def airportRowLe (a b : AirportTripsRow) : Bool :=
  a.zip_code < b.zip_code ||
    (a.zip_code = b.zip_code && a.week_start ≤ b.week_start)

/-- Strict ascending order on a nullable text column, `NULLS LAST`
(Postgres default for `ASC`). -/
def optStrAscLt : Option String → Option String → Bool
  | some a, some b => decide (a < b)
  | some _, none => true
  | _, _ => false

/-- Non-strict ascending order on a nullable date column, `NULLS LAST`. -/
def optIntAscLe : Option Int → Option Int → Bool
  | some a, some b => decide (a ≤ b)
  | some _, none => true
  | none, none => true
  | none, some _ => false

/-- `ORDER BY "community_area_or_zip", "week_start"` on `req_3_ccvi_trips`
rows. -/
def ccviTripsRowLe (a b : CcviTripsRow) : Bool :=
  optStrAscLt a.community_area_or_zip b.community_area_or_zip ||
    (a.community_area_or_zip = b.community_area_or_zip &&
      optIntAscLe a.week_start b.week_start)

/-- `ALTER TABLE "covid_rep_cats" ADD COLUMN covid_cat VARCHAR(6)` row
effect (no default: the new column is `NULL`). -/
def repCatInitCat (c : CovidRepCatRow) : CovidRepCatRow :=
  { c with covid_cat := none }

/-- The category `UPDATE` row effect. -/
def repCatSetCat (c : CovidRepCatRow) : CovidRepCatRow :=
  { c with covid_cat := covidCatCase c.case_rate_weekly }

/-- The `covid_rep_cats` contents after the first four statements. -/
def repCatFinalRows (cov : List CovidRow) : List CovidRepCatRow :=
  ((cov.map repCatOfCovidRow).map repCatInitCat).map repCatSetCat

def alertsInitAirportDropoff (r : AlertsRow) : AlertsRow :=
  { r with airport_dropoff := false }

def alertsInitAirportPickup (r : AlertsRow) : AlertsRow :=
  { r with airport_pickup := false }

/-- `UPDATE … SET airport_dropoff = true WHERE "dropoff_zip_code" IN
('60666', '60656', '60665', '60638')` row effect. -/
def alertsSetAirportDropoff (r : AlertsRow) : AlertsRow :=
  if zipInAirportSet r.dropoff_zip_code then { r with airport_dropoff := true } else r

def alertsSetAirportPickup (r : AlertsRow) : AlertsRow :=
  if zipInAirportSet r.pickup_zip_code then { r with airport_pickup := true } else r

def alertsInitDay (r : AlertsRow) : AlertsRow := { r with day := none }

/-- `UPDATE … SET day = "trip_start_timestamp"::date` row effect. -/
def alertsSetDay (r : AlertsRow) : AlertsRow :=
  { r with day := r.trip_start_timestamp.map tsCastDate }

def alertsInitWeekStart (r : AlertsRow) : AlertsRow := { r with week_start := none }

/-- `UPDATE … SET week_start = (DATE_TRUNC('week', "trip_start_timestamp")
- INTERVAL '1 day')::date` row effect. -/
def alertsSetWeekStart (r : AlertsRow) : AlertsRow :=
  { r with week_start := r.trip_start_timestamp.map tsWeekStartCol }

def alertsInitMonthStart (r : AlertsRow) : AlertsRow := { r with month_start := none }

/-- `UPDATE … SET month_start = DATE_TRUNC('month',
"trip_start_timestamp")::date` row effect. -/
def alertsSetMonthStart (r : AlertsRow) : AlertsRow :=
  { r with month_start := r.trip_start_timestamp.map tsMonthStartCol }

def alertsInitPickupCat (r : AlertsRow) : AlertsRow := { r with pickup_covid_cat := none }

def alertsInitDropoffCat (r : AlertsRow) : AlertsRow := { r with dropoff_covid_cat := none }

/-- `UPDATE alerts t SET pickup_covid_cat = c.covid_cat FROM covid_rep_cats
c WHERE t."pickup_zip_code" = c."zip_code" AND t."week_start" =
c."week_start"` row effect (several matching category rows would be
resolved arbitrarily by the engine; the model takes the first). -/
def alertsJoinPickupCat (cats : List CovidRepCatRow) (t : AlertsRow) : AlertsRow :=
  match cats.find? (fun c => sqlEq t.pickup_zip_code (some c.zip_code) &&
      sqlEq t.week_start (some c.week_start)) with
  | some c => { t with pickup_covid_cat := c.covid_cat }
  | none => t

def alertsJoinDropoffCat (cats : List CovidRepCatRow) (t : AlertsRow) : AlertsRow :=
  match cats.find? (fun c => sqlEq t.dropoff_zip_code (some c.zip_code) &&
      sqlEq t.week_start (some c.week_start)) with
  | some c => { t with dropoff_covid_cat := c.covid_cat }
  | none => t

/-- `ALTER TABLE "req_2_airport_trips" ADD COLUMN trips_to_airport
INTEGER DEFAULT 0` row effect. -/
def airportInitTo (a : AirportTripsRow) : AirportTripsRow :=
  { a with trips_to_airport := 0 }

def airportInitFrom (a : AirportTripsRow) : AirportTripsRow :=
  { a with trips_from_airport := 0 }

/-- The `UPDATE … SET trips_to_airport = … FROM (SELECT … GROUP BY …)`
row effect, joining on `(zip_code, week_start)` against the grouped
counts. -/
def airportSetTo (groups : List ((Option String × Option Int) × Nat))
    (a : AirportTripsRow) : AirportTripsRow :=
  match groupLookup groups (some a.zip_code, some a.week_start) with
  | some n => { a with trips_to_airport := (n : Int) }
  | none => a

def airportSetFrom (groups : List ((Option String × Option Int) × Nat))
    (a : AirportTripsRow) : AirportTripsRow :=
  match groupLookup groups (some a.zip_code, some a.week_start) with
  | some n => { a with trips_from_airport := (n : Int) }
  | none => a

def resInitWeeklyDropoffs (r : ResidentsRow) : ResidentsRow :=
  { r with weekly_dropoffs := 0 }

/-- The `UPDATE residents r SET weekly_dropoffs = wd.weekly_dropoffs FROM
weekly_trips_by_dropoff_and_zip wd WHERE …` row effect. -/
def resSetWeeklyDropoffs (wds : List WeeklyDropoffRow) (r : ResidentsRow) :
    ResidentsRow :=
  match wds.find? (fun wd => sqlEq (some r.zip_code) wd.dropoff_zip_code &&
      sqlEq (some r.week_start) wd.week_start) with
  | some wd => { r with weekly_dropoffs := wd.weekly_dropoffs }
  | none => r

def resInitWeeklyPickups (r : ResidentsRow) : ResidentsRow :=
  { r with weekly_pickups := 0 }

def resSetWeeklyPickups (wps : List WeeklyPickupRow) (r : ResidentsRow) :
    ResidentsRow :=
  match wps.find? (fun wp => sqlEq (some r.zip_code) wp.pickup_zip_code &&
      sqlEq (some r.week_start) wp.week_start) with
  | some wp => { r with weekly_pickups := wp.weekly_pickups }
  | none => r

/-- The ordered statement list of `CreateCovidCategoryReport`
(`statements := []string{…}` in `trip_reports.go`). -/
def covidStatements : List SqlStmt := [
  { text := "DROP TABLE IF EXISTS " ++ quoteIdentifier covidRepCatsTable,
    accepts := fun _ => true,
    run := fun db => { db with covid_rep_cats := none } },
  { text := "CREATE TABLE " ++ quoteIdentifier covidRepCatsTable ++ " AS TABLE " ++
      quoteIdentifier covidTable,
    accepts := fun db => db.covid.isSome && db.covid_rep_cats.isNone,
    run := fun db =>
      { db with covid_rep_cats := some ((db.covid.getD []).map repCatOfCovidRow) } },
  { text := "ALTER TABLE " ++ quoteIdentifier covidRepCatsTable ++
      " ADD COLUMN covid_cat VARCHAR(6)",
    accepts := fun db => db.covid_rep_cats.isSome,
    run := fun db =>
      { db with covid_rep_cats := some ((db.covid_rep_cats.getD []).map
          repCatInitCat) } },
  { text := "UPDATE " ++ quoteIdentifier covidRepCatsTable ++
      " SET covid_cat = CASE WHEN \"case_rate_weekly\" < 50 THEN 'low'" ++
      " WHEN \"case_rate_weekly\" >= 50 AND \"case_rate_weekly\" < 100 THEN 'medium'" ++
      " WHEN \"case_rate_weekly\" >= 100 THEN 'high' END",
    accepts := fun db => db.covid_rep_cats.isSome,
    run := fun db =>
      { db with covid_rep_cats := some ((db.covid_rep_cats.getD []).map
          repCatSetCat) } },
  { text := "DROP TABLE IF EXISTS " ++ quoteIdentifier covidAlertsTable,
    accepts := fun _ => true,
    run := fun db => { db with req_1a_covid_alerts_drivers := none } },
  { text := "CREATE TABLE " ++ quoteIdentifier covidAlertsTable ++ " AS TABLE " ++
      quoteIdentifier taxiTripsTable,
    accepts := fun db => db.taxi_trips.isSome && db.req_1a_covid_alerts_drivers.isNone,
    run := fun db =>
      { db with req_1a_covid_alerts_drivers := some ((db.taxi_trips.getD []).map alertsOfTripRow) } },
  { text := "ALTER TABLE " ++ quoteIdentifier covidAlertsTable ++
      " ADD COLUMN airport_dropoff BOOLEAN DEFAULT false",
    accepts := fun db => db.req_1a_covid_alerts_drivers.isSome,
    run := fun db =>
      { db with req_1a_covid_alerts_drivers := some ((db.req_1a_covid_alerts_drivers.getD []).map
            alertsInitAirportDropoff) } },
  { text := "ALTER TABLE " ++ quoteIdentifier covidAlertsTable ++
      " ADD COLUMN airport_pickup BOOLEAN DEFAULT false",
    accepts := fun db => db.req_1a_covid_alerts_drivers.isSome,
    run := fun db =>
      { db with req_1a_covid_alerts_drivers := some ((db.req_1a_covid_alerts_drivers.getD []).map
            alertsInitAirportPickup) } },
  { text := "UPDATE " ++ quoteIdentifier covidAlertsTable ++
      " SET airport_dropoff = true WHERE \"dropoff_zip_code\" IN ('60666', '60656', '60665', '60638')",
    accepts := fun db => db.req_1a_covid_alerts_drivers.isSome,
    run := fun db =>
      { db with req_1a_covid_alerts_drivers := some ((db.req_1a_covid_alerts_drivers.getD []).map
            alertsSetAirportDropoff) } },
  { text := "UPDATE " ++ quoteIdentifier covidAlertsTable ++
      " SET airport_pickup = true WHERE \"pickup_zip_code\" IN ('60666', '60656', '60665', '60638')",
    accepts := fun db => db.req_1a_covid_alerts_drivers.isSome,
    run := fun db =>
      { db with req_1a_covid_alerts_drivers := some ((db.req_1a_covid_alerts_drivers.getD []).map
            alertsSetAirportPickup) } },
  { text := "ALTER TABLE " ++ quoteIdentifier covidAlertsTable ++ " ADD COLUMN day DATE",
    accepts := fun db => db.req_1a_covid_alerts_drivers.isSome,
    run := fun db =>
      { db with req_1a_covid_alerts_drivers := some ((db.req_1a_covid_alerts_drivers.getD []).map
            alertsInitDay) } },
  { text := "UPDATE " ++ quoteIdentifier covidAlertsTable ++
      " SET day = \"trip_start_timestamp\"::date",
    accepts := fun db => db.req_1a_covid_alerts_drivers.isSome,
    run := fun db =>
      { db with req_1a_covid_alerts_drivers := some ((db.req_1a_covid_alerts_drivers.getD []).map
            alertsSetDay) } },
  { text := "ALTER TABLE " ++ quoteIdentifier covidAlertsTable ++
      " ADD COLUMN week_start DATE",
    accepts := fun db => db.req_1a_covid_alerts_drivers.isSome,
    run := fun db =>
      { db with req_1a_covid_alerts_drivers := some ((db.req_1a_covid_alerts_drivers.getD []).map
            alertsInitWeekStart) } },
  { text := "UPDATE " ++ quoteIdentifier covidAlertsTable ++
      " SET week_start = (DATE_TRUNC('week', \"trip_start_timestamp\") - INTERVAL '1 day')::date",
    accepts := fun db => db.req_1a_covid_alerts_drivers.isSome,
    run := fun db =>
      { db with req_1a_covid_alerts_drivers := some ((db.req_1a_covid_alerts_drivers.getD []).map
            alertsSetWeekStart) } },
  { text := "ALTER TABLE " ++ quoteIdentifier covidAlertsTable ++
      " ADD COLUMN month_start DATE",
    accepts := fun db => db.req_1a_covid_alerts_drivers.isSome,
    run := fun db =>
      { db with req_1a_covid_alerts_drivers := some ((db.req_1a_covid_alerts_drivers.getD []).map
            alertsInitMonthStart) } },
  { text := "UPDATE " ++ quoteIdentifier covidAlertsTable ++
      " SET month_start = DATE_TRUNC('month', \"trip_start_timestamp\")::date",
    accepts := fun db => db.req_1a_covid_alerts_drivers.isSome,
    run := fun db =>
      { db with req_1a_covid_alerts_drivers := some ((db.req_1a_covid_alerts_drivers.getD []).map
            alertsSetMonthStart) } },
  { text := "DROP TABLE IF EXISTS " ++ quoteIdentifier reqAirportTripsTable,
    accepts := fun _ => true,
    run := fun db => { db with req_2_airport_trips := none } },
  { text := "CREATE TABLE " ++ quoteIdentifier reqAirportTripsTable ++ " AS TABLE " ++
      quoteIdentifier covidRepCatsTable,
    accepts := fun db => db.covid_rep_cats.isSome && db.req_2_airport_trips.isNone,
    run := fun db =>
      { db with req_2_airport_trips := some ((db.covid_rep_cats.getD []).map airportOfRepCatRow) } },
  { text := "ALTER TABLE " ++ quoteIdentifier reqAirportTripsTable ++
      " ADD COLUMN trips_to_airport INTEGER DEFAULT 0",
    accepts := fun db => db.req_2_airport_trips.isSome,
    run := fun db =>
      { db with req_2_airport_trips := some ((db.req_2_airport_trips.getD []).map
          airportInitTo) } },
  { text := "ALTER TABLE " ++ quoteIdentifier reqAirportTripsTable ++
      " ADD COLUMN trips_from_airport INTEGER DEFAULT 0",
    accepts := fun db => db.req_2_airport_trips.isSome,
    run := fun db =>
      { db with req_2_airport_trips := some ((db.req_2_airport_trips.getD []).map
          airportInitFrom) } },
  { text := "UPDATE " ++ quoteIdentifier reqAirportTripsTable ++
      " cat SET trips_to_airport = airport_counts.trips_to_airport FROM (" ++
      " SELECT \"pickup_zip_code\" AS zip_code, week_start, COUNT(*) AS trips_to_airport FROM " ++
      quoteIdentifier covidAlertsTable ++
      " WHERE airport_dropoff = true GROUP BY \"pickup_zip_code\", week_start )" ++
      " AS airport_counts WHERE cat.\"zip_code\" = airport_counts.zip_code" ++
      " AND cat.\"week_start\" = airport_counts.week_start",
    accepts := fun db => db.req_2_airport_trips.isSome && db.req_1a_covid_alerts_drivers.isSome,
    run := fun db =>
      let groups := groupCountBy (fun r => (r.pickup_zip_code, r.week_start))
        ((db.req_1a_covid_alerts_drivers.getD []).filter (fun r => r.airport_dropoff))
      { db with req_2_airport_trips := some ((db.req_2_airport_trips.getD []).map
          (airportSetTo groups)) } },
  { text := "UPDATE " ++ quoteIdentifier reqAirportTripsTable ++
      " cat SET trips_from_airport = airport_counts.trips_from_airport FROM (" ++
      " SELECT \"dropoff_zip_code\" AS zip_code, week_start, COUNT(*) AS trips_from_airport FROM " ++
      quoteIdentifier covidAlertsTable ++
      " WHERE airport_pickup = true GROUP BY \"dropoff_zip_code\", week_start )" ++
      " AS airport_counts WHERE cat.\"zip_code\" = airport_counts.zip_code" ++
      " AND cat.\"week_start\" = airport_counts.week_start",
    accepts := fun db => db.req_2_airport_trips.isSome && db.req_1a_covid_alerts_drivers.isSome,
    run := fun db =>
      let groups := groupCountBy (fun r => (r.dropoff_zip_code, r.week_start))
        ((db.req_1a_covid_alerts_drivers.getD []).filter (fun r => r.airport_pickup))
      { db with req_2_airport_trips := some ((db.req_2_airport_trips.getD []).map
          (airportSetFrom groups)) } },
  { text := "DROP TABLE IF EXISTS " ++ quoteIdentifier (reqAirportTripsTable ++ "_sorted"),
    accepts := fun _ => true,
    run := fun db => { db with req_2_airport_trips_sorted := none } },
  { text := "CREATE TABLE " ++ quoteIdentifier (reqAirportTripsTable ++ "_sorted") ++
      " AS SELECT * FROM " ++ quoteIdentifier reqAirportTripsTable ++
      " ORDER BY \"zip_code\", \"week_start\"",
    accepts := fun db => db.req_2_airport_trips.isSome && db.req_2_airport_trips_sorted.isNone,
    run := fun db =>
      { db with req_2_airport_trips_sorted := some (List.insertionSort (fun a b => airportRowLe a b = true)
            (db.req_2_airport_trips.getD [])) } },
  { text := "DROP TABLE " ++ quoteIdentifier reqAirportTripsTable,
    accepts := fun db => db.req_2_airport_trips.isSome,
    run := fun db => { db with req_2_airport_trips := none } },
  { text := "ALTER TABLE " ++ quoteIdentifier (reqAirportTripsTable ++ "_sorted") ++
      " RENAME TO " ++ quoteIdentifier reqAirportTripsTable,
    accepts := fun db => db.req_2_airport_trips_sorted.isSome && db.req_2_airport_trips.isNone,
    run := fun db =>
      { db with req_2_airport_trips := db.req_2_airport_trips_sorted,
                req_2_airport_trips_sorted := none } },
  { text := "ALTER TABLE " ++ quoteIdentifier covidAlertsTable ++
      " ADD COLUMN pickup_covid_cat VARCHAR(6)",
    accepts := fun db => db.req_1a_covid_alerts_drivers.isSome,
    run := fun db =>
      { db with req_1a_covid_alerts_drivers := some ((db.req_1a_covid_alerts_drivers.getD []).map
            alertsInitPickupCat) } },
  { text := "ALTER TABLE " ++ quoteIdentifier covidAlertsTable ++
      " ADD COLUMN dropoff_covid_cat VARCHAR(6)",
    accepts := fun db => db.req_1a_covid_alerts_drivers.isSome,
    run := fun db =>
      { db with req_1a_covid_alerts_drivers := some ((db.req_1a_covid_alerts_drivers.getD []).map
            alertsInitDropoffCat) } },
  { text := "UPDATE " ++ quoteIdentifier covidAlertsTable ++
      " t SET pickup_covid_cat = c.covid_cat FROM " ++ quoteIdentifier covidRepCatsTable ++
      " c WHERE t.\"pickup_zip_code\" = c.\"zip_code\" AND t.\"week_start\" = c.\"week_start\"",
    accepts := fun db => db.req_1a_covid_alerts_drivers.isSome && db.covid_rep_cats.isSome,
    run := fun db =>
      let cats := db.covid_rep_cats.getD []
      { db with req_1a_covid_alerts_drivers := some ((db.req_1a_covid_alerts_drivers.getD []).map
            (alertsJoinPickupCat cats)) } },
  { text := "UPDATE " ++ quoteIdentifier covidAlertsTable ++
      " t SET dropoff_covid_cat = c.covid_cat FROM " ++ quoteIdentifier covidRepCatsTable ++
      " c WHERE t.\"dropoff_zip_code\" = c.\"zip_code\" AND t.\"week_start\" = c.\"week_start\"",
    accepts := fun db => db.req_1a_covid_alerts_drivers.isSome && db.covid_rep_cats.isSome,
    run := fun db =>
      let cats := db.covid_rep_cats.getD []
      { db with req_1a_covid_alerts_drivers := some ((db.req_1a_covid_alerts_drivers.getD []).map
            (alertsJoinDropoffCat cats)) } },
  { text := "DROP TABLE IF EXISTS " ++ quoteIdentifier weeklyPickupTable,
    accepts := fun _ => true,
    run := fun db => { db with weekly_trips_by_pickup_and_zip := none } },
  { text := "CREATE TABLE " ++ quoteIdentifier weeklyPickupTable ++
      " AS SELECT week_start, \"pickup_zip_code\", COUNT(*) AS weekly_pickups FROM " ++
      quoteIdentifier covidAlertsTable ++ " GROUP BY week_start, \"pickup_zip_code\"",
    accepts := fun db => db.req_1a_covid_alerts_drivers.isSome &&
      db.weekly_trips_by_pickup_and_zip.isNone,
    run := fun db =>
      { db with weekly_trips_by_pickup_and_zip := some (buildWeeklyPickup (db.req_1a_covid_alerts_drivers.getD [])) } },
  { text := "DROP TABLE IF EXISTS " ++ quoteIdentifier weeklyDropoffTable,
    accepts := fun _ => true,
    run := fun db => { db with weekly_trips_by_dropoff_and_zip := none } },
  { text := "CREATE TABLE " ++ quoteIdentifier weeklyDropoffTable ++
      " AS SELECT week_start, \"dropoff_zip_code\", COUNT(*) AS weekly_dropoffs FROM " ++
      quoteIdentifier covidAlertsTable ++ " GROUP BY week_start, \"dropoff_zip_code\"",
    accepts := fun db => db.req_1a_covid_alerts_drivers.isSome &&
      db.weekly_trips_by_dropoff_and_zip.isNone,
    run := fun db =>
      { db with weekly_trips_by_dropoff_and_zip := some (buildWeeklyDropoff (db.req_1a_covid_alerts_drivers.getD [])) } },
  { text := "DROP TABLE IF EXISTS " ++ quoteIdentifier covidAlertsResidents,
    accepts := fun _ => true,
    run := fun db => { db with req_1b_covid_alerts_residents := none } },
  { text := "CREATE TABLE " ++ quoteIdentifier covidAlertsResidents ++ " AS TABLE " ++
      quoteIdentifier covidRepCatsTable,
    accepts := fun db => db.covid_rep_cats.isSome && db.req_1b_covid_alerts_residents.isNone,
    run := fun db =>
      { db with req_1b_covid_alerts_residents := some ((db.covid_rep_cats.getD []).map residentsOfRepCatRow) } },
  { text := "ALTER TABLE " ++ quoteIdentifier covidAlertsResidents ++
      " ADD COLUMN weekly_dropoffs INTEGER DEFAULT 0",
    accepts := fun db => db.req_1b_covid_alerts_residents.isSome,
    run := fun db =>
      { db with req_1b_covid_alerts_residents := some ((db.req_1b_covid_alerts_residents.getD []).map
            resInitWeeklyDropoffs) } },
  { text := "UPDATE " ++ quoteIdentifier covidAlertsResidents ++
      " r SET weekly_dropoffs = wd.weekly_dropoffs FROM " ++
      quoteIdentifier weeklyDropoffTable ++
      " wd WHERE r.\"zip_code\" = wd.\"dropoff_zip_code\" AND r.\"week_start\" = wd.\"week_start\"",
    accepts := fun db => db.req_1b_covid_alerts_residents.isSome &&
      db.weekly_trips_by_dropoff_and_zip.isSome,
    run := fun db =>
      let wds := db.weekly_trips_by_dropoff_and_zip.getD []
      { db with req_1b_covid_alerts_residents := some ((db.req_1b_covid_alerts_residents.getD []).map
            (resSetWeeklyDropoffs wds)) } },
  { text := "ALTER TABLE " ++ quoteIdentifier covidAlertsResidents ++
      " ADD COLUMN weekly_pickups INTEGER DEFAULT 0",
    accepts := fun db => db.req_1b_covid_alerts_residents.isSome,
    run := fun db =>
      { db with req_1b_covid_alerts_residents := some ((db.req_1b_covid_alerts_residents.getD []).map
            resInitWeeklyPickups) } },
  { text := "UPDATE " ++ quoteIdentifier covidAlertsResidents ++
      " r SET weekly_pickups = wp.weekly_pickups FROM " ++
      quoteIdentifier weeklyPickupTable ++
      " wp WHERE r.\"zip_code\" = wp.\"pickup_zip_code\" AND r.\"week_start\" = wp.\"week_start\"",
    accepts := fun db => db.req_1b_covid_alerts_residents.isSome &&
      db.weekly_trips_by_pickup_and_zip.isSome,
    run := fun db =>
      let wps := db.weekly_trips_by_pickup_and_zip.getD []
      { db with req_1b_covid_alerts_residents := some ((db.req_1b_covid_alerts_residents.getD []).map
            (resSetWeeklyPickups wps)) } },
  { text := "DROP TABLE IF EXISTS " ++ quoteIdentifier dailyTripsTable,
    accepts := fun _ => true,
    run := fun db => { db with req_4_daily_trips := none } },
  { text := "CREATE TABLE " ++ quoteIdentifier dailyTripsTable ++
      " AS WITH daily_counts AS ( SELECT \"dropoff_zip_code\", day, COUNT(*) AS trips_per_day FROM " ++
      quoteIdentifier covidAlertsTable ++ " GROUP BY \"dropoff_zip_code\", day )," ++
      " next_day AS ( SELECT (MAX(day) + INTERVAL '1 day')::date AS day_value FROM " ++
      quoteIdentifier covidAlertsTable ++ " )" ++
      " SELECT dc.\"dropoff_zip_code\" AS zip_code, nd.day_value AS day, AVG(dc.trips_per_day) AS trips" ++
      " FROM daily_counts dc CROSS JOIN next_day nd GROUP BY dc.\"dropoff_zip_code\", nd.day_value",
    accepts := fun db => db.req_1a_covid_alerts_drivers.isSome && db.req_4_daily_trips.isNone,
    run := fun db =>
      { db with req_4_daily_trips := some (buildDailyTrips (db.req_1a_covid_alerts_drivers.getD [])) } },
  { text := "DROP TABLE IF EXISTS " ++ quoteIdentifier weeklyTripsTable,
    accepts := fun _ => true,
    run := fun db => { db with req_4_weekly_trips := none } },
  { text := "CREATE TABLE " ++ quoteIdentifier weeklyTripsTable ++
      " AS WITH weekly_counts AS ( SELECT \"dropoff_zip_code\", week_start, COUNT(*) AS trips_per_week FROM " ++
      quoteIdentifier covidAlertsTable ++ " GROUP BY \"dropoff_zip_code\", week_start )," ++
      " next_week AS ( SELECT (MAX(week_start) + INTERVAL '1 week')::date AS week_value FROM " ++
      quoteIdentifier covidAlertsTable ++ " )" ++
      " SELECT wc.\"dropoff_zip_code\" AS zip_code, nw.week_value AS week_start, AVG(wc.trips_per_week) AS trips" ++
      " FROM weekly_counts wc CROSS JOIN next_week nw GROUP BY wc.\"dropoff_zip_code\", nw.week_value",
    accepts := fun db => db.req_1a_covid_alerts_drivers.isSome && db.req_4_weekly_trips.isNone,
    run := fun db =>
      { db with req_4_weekly_trips := some (buildWeeklyTrips (db.req_1a_covid_alerts_drivers.getD [])) } },
  { text := "DROP TABLE IF EXISTS " ++ quoteIdentifier CCVITable,
    accepts := fun _ => true,
    run := fun db => { db with req_3_ccvi_trips := none } },
  { text := "CREATE TABLE " ++ quoteIdentifier CCVITable ++
      " AS WITH weekly_trips AS ( SELECT week_start, \"pickup_zip_code\" AS zip_code, COUNT(*) AS trips FROM " ++
      quoteIdentifier covidAlertsTable ++ " GROUP BY week_start, \"pickup_zip_code\"" ++
      " UNION ALL SELECT week_start, \"dropoff_zip_code\" AS zip_code, COUNT(*) AS trips FROM " ++
      quoteIdentifier covidAlertsTable ++ " GROUP BY week_start, \"dropoff_zip_code\" )" ++
      " SELECT c.*, wt.week_start, SUM(wt.trips) AS weekly_trips FROM " ++
      quoteIdentifier ccviTable ++
      " c JOIN weekly_trips wt ON wt.zip_code = c.\"community_area_or_zip\"" ++
      " WHERE c.\"ccvi_category\" = 'HIGH' AND c.\"geography_type\" = 'ZIP'" ++
      " GROUP BY c.\"id\", c.\"geography_type\", c.\"community_area_or_zip\"," ++
      " c.\"community_area_name\", c.\"ccvi_score\", c.\"ccvi_category\", wt.week_start",
    accepts := fun db => db.ccvi.isSome && db.req_1a_covid_alerts_drivers.isSome &&
      db.req_3_ccvi_trips.isNone,
    run := fun db =>
      { db with req_3_ccvi_trips := some (buildCcviTrips (db.ccvi.getD []) (db.req_1a_covid_alerts_drivers.getD [])) } },
  { text := "DROP TABLE IF EXISTS " ++ quoteIdentifier (CCVITable ++ "_sorted"),
    accepts := fun _ => true,
    run := fun db => { db with req_3_ccvi_trips_sorted := none } },
  { text := "CREATE TABLE " ++ quoteIdentifier (CCVITable ++ "_sorted") ++
      " AS SELECT * FROM " ++ quoteIdentifier CCVITable ++
      " ORDER BY \"community_area_or_zip\", \"week_start\"",
    accepts := fun db => db.req_3_ccvi_trips.isSome && db.req_3_ccvi_trips_sorted.isNone,
    run := fun db =>
      { db with req_3_ccvi_trips_sorted := some (List.insertionSort (fun a b => ccviTripsRowLe a b = true)
            (db.req_3_ccvi_trips.getD [])) } },
  { text := "DROP TABLE " ++ quoteIdentifier CCVITable,
    accepts := fun db => db.req_3_ccvi_trips.isSome,
    run := fun db => { db with req_3_ccvi_trips := none } },
  { text := "ALTER TABLE " ++ quoteIdentifier (CCVITable ++ "_sorted") ++
      " RENAME TO " ++ quoteIdentifier CCVITable,
    accepts := fun db => db.req_3_ccvi_trips_sorted.isSome && db.req_3_ccvi_trips.isNone,
    run := fun db =>
      { db with req_3_ccvi_trips := db.req_3_ccvi_trips_sorted,
                req_3_ccvi_trips_sorted := none } },
  { text := "DROP TABLE IF EXISTS " ++ quoteIdentifier monthlyTripsTable,
    accepts := fun _ => true,
    run := fun db => { db with req_4_monthly_trips := none } },
  { text := "CREATE TABLE " ++ quoteIdentifier monthlyTripsTable ++
      " AS WITH monthly_counts AS ( SELECT \"dropoff_zip_code\", month_start, COUNT(*) AS trips_per_month FROM " ++
      quoteIdentifier covidAlertsTable ++ " GROUP BY \"dropoff_zip_code\", month_start )," ++
      " next_month AS ( SELECT (MAX(month_start) + INTERVAL '1 month')::date AS month_value FROM " ++
      quoteIdentifier covidAlertsTable ++ " )" ++
      " SELECT mc.\"dropoff_zip_code\" AS zip_code, nm.month_value AS month_start, AVG(mc.trips_per_month) AS trips" ++
      " FROM monthly_counts mc CROSS JOIN next_month nm GROUP BY mc.\"dropoff_zip_code\", nm.month_value",
    accepts := fun db => db.req_1a_covid_alerts_drivers.isSome && db.req_4_monthly_trips.isNone,
    run := fun db =>
      { db with req_4_monthly_trips := some (buildMonthlyTrips (db.req_1a_covid_alerts_drivers.getD [])) } }
]

/-- `CreateCovidCategoryReport` on an open connection: dependency checks
on `covid`, `taxi_trips` and `ccvi` in order, then the single transaction
over `covidStatements`. Returns the post-call database state and the
returned error (if any). -/
def createCovidCategoryReportOn (flt : Nat → Bool) (db : DBState) :
    DBState × Option String :=
  match ensureTableReady db covidTable with
  | some e => (db, some e)
  | none =>
    match ensureTableReady db taxiTripsTable with
    | some e => (db, some e)
    | none =>
      match ensureTableReady db ccviTable with
      | some e => (db, some e)
      | none => runTx (withFaults flt covidStatements) db

/-- `CreateCovidCategoryReport(db *sql.DB)`: a `nil` handle is rejected
before anything runs. -/
def CreateCovidCategoryReport (flt : Nat → Bool) (dbh : Option DBState) :
    Option DBState × Option String :=
  match dbh with
  | none => (none, some "db connection is nil")
  | some db =>
    let r := createCovidCategoryReportOn flt db
    (some r.1, r.2)

/-! ## Disadvantaged-report builder (`disadvantaged_permits.go`, the
`public_health`/PostGIS version whose line numbers the claims cite) -/

/-- The builder's environment: the geocoding feature flag and API state,
PostGIS availability, and the result of `loadCommunityAreaZipCodes`
(`none` models a failed load: missing/unreadable/invalid crosswalk file).
The reverse geocoder is a deterministic function of the coordinates;
`none` models a geocoding error (the row is skipped). -/
structure ReportsEnv where
  useGeocoding : Bool
  postgisAvailable : Bool
  crosswalk : Option (List (Int × String))
  geocodeZip : ℚ → ℚ → Option String

/-- `CREATE TABLE "report_7_disadv_perm" AS TABLE "building_permits"` row
image (derived columns added by the following `ALTER`s; the flag column
later renamed `waived_fee` is called `waived_fee` throughout). -/
def disadvPermOfPermitRow (p : BuildingPermitRow) : DisadvPermRow :=
  { id := p.id, permit_id := p.permit_id, permit_type := p.permit_type,
    issue_date := p.issue_date, street_number := p.street_number,
    street_name := p.street_name, latitude := p.latitude,
    longitude := p.longitude, community_area := p.community_area,
    census_tract := p.census_tract, point := none, zip_code := "",
    top_5_poverty := false, top_5_unemployment := false, waived_fee := false }

/-- `CREATE TABLE "disadvantaged" AS TABLE "public_health"` row image. -/
def disadvantagedOfHealthRow (h : PublicHealthRow) : DisadvantagedRow :=
  { community_area := h.community_area,
    below_poverty_level := h.below_poverty_level,
    unemployment := h.unemployment,
    per_capita_income := h.per_capita_income, zip_code := "",
    top_5_poverty := false, top_5_unemployment := false,
    disadvantaged := false }

/-- `ORDER BY col DESC` on a nullable numeric column: larger values first,
`NULLS FIRST` (Postgres default for `DESC`). -/
def descNullsFirstLe (x y : Option ℚ) : Bool :=
  match x, y with
  | none, _ => true
  | some _, none => false
  | some a, some b => decide (b ≤ a)

/-- The `SELECT "community_area" FROM disadvantaged ORDER BY
"below_poverty_level" DESC LIMIT 5` subquery. Ties at the boundary are
resolved by the engine's default order, modelled as the stable insertion
sort of the stored row order. -/
def top5PovertyAreas (rows : List DisadvantagedRow) : List String :=
  ((List.insertionSort
      (fun a b => descNullsFirstLe a.below_poverty_level b.below_poverty_level = true)
      rows).take 5).map (fun r => r.community_area)

/-- The `ORDER BY "unemployment" DESC LIMIT 5` subquery. -/
def top5UnemploymentAreas (rows : List DisadvantagedRow) : List String :=
  ((List.insertionSort
      (fun a b => descNullsFirstLe a.unemployment b.unemployment = true)
      rows).take 5).map (fun r => r.community_area)

/-- The `('%d', '%s')` crosswalk `VALUES` join of the bulk zip-code
backfill: match a community-area text value against the decimal rendering
of a crosswalk key (Go map keys are unique, so at most one row matches). -/
def crosswalkZipLookup (cmap : List (Int × String)) (area : String) : Option String :=
  (cmap.find? (fun p => decide (toString p.1 = area))).map (fun p => p.2)

/-- Row effects of the disadvantaged-builder statements. -/
def dpInitPoint (p : DisadvPermRow) : DisadvPermRow := { p with point := none }

def dpClearZip (p : DisadvPermRow) : DisadvPermRow := { p with zip_code := "" }

/-- `UPDATE … SET point = ST_SetSRID(ST_MakePoint("longitude",
"latitude"), 4326) WHERE "longitude" IS NOT NULL AND "latitude" IS NOT
NULL` row effect (a point is modelled by its coordinate pair). -/
def dpSetPoint (p : DisadvPermRow) : DisadvPermRow :=
  match p.longitude, p.latitude with
  | some lon, some lat => { p with point := some (lon, lat) }
  | _, _ => p

def dpInitFlags (p : DisadvPermRow) : DisadvPermRow :=
  { p with top_5_poverty := false, top_5_unemployment := false, waived_fee := false }

def dClearZip (r : DisadvantagedRow) : DisadvantagedRow := { r with zip_code := "" }

def dInitFlags (r : DisadvantagedRow) : DisadvantagedRow :=
  { r with top_5_poverty := false, top_5_unemployment := false, disadvantaged := false }

/-- `UPDATE disadvantaged SET top_5_poverty = TRUE WHERE "community_area"
IN (…LIMIT 5 subquery…)` row effect. -/
def dSetTop5Poverty (t5 : List String) (r : DisadvantagedRow) : DisadvantagedRow :=
  if t5.contains r.community_area then { r with top_5_poverty := true } else r

def dSetTop5Unemployment (t5 : List String) (r : DisadvantagedRow) : DisadvantagedRow :=
  if t5.contains r.community_area then { r with top_5_unemployment := true } else r

/-- `UPDATE disadvantaged SET disadvantaged = top_5_poverty OR
top_5_unemployment` row effect. -/
def dSetOrFlag (r : DisadvantagedRow) : DisadvantagedRow :=
  { r with disadvantaged := r.top_5_poverty || r.top_5_unemployment }

/-- `UPDATE report dp SET top_5_poverty = d.top_5_poverty, … FROM
disadvantaged d WHERE dp."community_area" = d."community_area"` row
effect: flags are copied from the joined `disadvantaged` row (the first
match; `community_area` is the `public_health` primary key, so matches
are unique on intended data). -/
def dpCopyFlags (dRows : List DisadvantagedRow) (p : DisadvPermRow) : DisadvPermRow :=
  match dRows.find? (fun d => sqlEq p.community_area (some d.community_area)) with
  | some d => { p with top_5_poverty := d.top_5_poverty,
                       top_5_unemployment := d.top_5_unemployment,
                       waived_fee := d.disadvantaged }
  | none => p

/-- The crosswalk backfill row effect on `disadvantaged`. -/
def dZipFromCrosswalk (cmap : List (Int × String)) (r : DisadvantagedRow) :
    DisadvantagedRow :=
  match crosswalkZipLookup cmap r.community_area with
  | some z => { r with zip_code := z }
  | none => r

/-- The crosswalk backfill row effect on the permits report. -/
def dpZipFromCrosswalk (cmap : List (Int × String)) (p : DisadvPermRow) :
    DisadvPermRow :=
  match p.community_area with
  | some area =>
    match crosswalkZipLookup cmap area with
    | some z => { p with zip_code := z }
    | none => p
  | none => p

/-- The per-row reverse-geocoding backfill effect on the permits report. -/
def dpZipFromGeocode (g : ℚ → ℚ → Option String) (p : DisadvPermRow) :
    DisadvPermRow :=
  match p.latitude, p.longitude with
  | some lat, some lon => { p with zip_code := (g lat lon).getD "" }
  | _, _ => p

/-- The ordered statement list of `CreateDisadvantagedReport`
(`statements := []string{…}` in `disadvantaged_permits.go`). -/
def disadvStatements : List SqlStmt := [
  { text := "DROP TABLE IF EXISTS " ++ quoteIdentifier disadvantagedPermitsTable,
    accepts := fun _ => true,
    run := fun db => { db with report_7_disadv_perm := none } },
  { text := "CREATE TABLE " ++ quoteIdentifier disadvantagedPermitsTable ++
      " AS TABLE " ++ quoteIdentifier buildingPermits,
    accepts := fun db => db.building_permits.isSome && db.report_7_disadv_perm.isNone,
    run := fun db =>
      { db with report_7_disadv_perm := some ((db.building_permits.getD []).map disadvPermOfPermitRow) } },
  { text := "ALTER TABLE " ++ quoteIdentifier disadvantagedPermitsTable ++
      " ADD COLUMN point geometry(Point, 4326)",
    accepts := fun db => db.report_7_disadv_perm.isSome,
    run := fun db =>
      { db with report_7_disadv_perm := some ((db.report_7_disadv_perm.getD []).map
          dpInitPoint) } },
  { text := "ALTER TABLE " ++ quoteIdentifier disadvantagedPermitsTable ++
      " ADD COLUMN zip_code VARCHAR(9) DEFAULT ''",
    accepts := fun db => db.report_7_disadv_perm.isSome,
    run := fun db =>
      { db with report_7_disadv_perm := some ((db.report_7_disadv_perm.getD []).map
          dpClearZip) } },
  { text := "UPDATE " ++ quoteIdentifier disadvantagedPermitsTable ++
      " SET point = ST_SetSRID(ST_MakePoint(\"longitude\", \"latitude\"), 4326)" ++
      " WHERE \"longitude\" IS NOT NULL AND \"latitude\" IS NOT NULL",
    accepts := fun db => db.report_7_disadv_perm.isSome,
    run := fun db =>
      { db with report_7_disadv_perm := some ((db.report_7_disadv_perm.getD []).map
          dpSetPoint) } },
  { text := "ALTER TABLE " ++ quoteIdentifier disadvantagedPermitsTable ++
      " ADD COLUMN top_5_poverty BOOLEAN DEFAULT FALSE," ++
      " ADD COLUMN top_5_unemployment BOOLEAN DEFAULT FALSE," ++
      " ADD COLUMN disadvantaged BOOLEAN DEFAULT FALSE",
    accepts := fun db => db.report_7_disadv_perm.isSome,
    run := fun db =>
      { db with report_7_disadv_perm := some ((db.report_7_disadv_perm.getD []).map
          dpInitFlags) } },
  { text := "DROP TABLE IF EXISTS " ++ quoteIdentifier disadvantagedTable,
    accepts := fun _ => true,
    run := fun db => { db with disadvantaged := none } },
  { text := "CREATE TABLE " ++ quoteIdentifier disadvantagedTable ++ " AS TABLE " ++
      quoteIdentifier publichealthTable,
    accepts := fun db => db.public_health.isSome && db.disadvantaged.isNone,
    run := fun db =>
      { db with disadvantaged := some ((db.public_health.getD []).map disadvantagedOfHealthRow) } },
  { text := "ALTER TABLE " ++ quoteIdentifier disadvantagedTable ++
      " ADD COLUMN zip_code VARCHAR(9) DEFAULT ''",
    accepts := fun db => db.disadvantaged.isSome,
    run := fun db =>
      { db with disadvantaged := some ((db.disadvantaged.getD []).map
          dClearZip) } },
  { text := "ALTER TABLE " ++ quoteIdentifier disadvantagedTable ++
      " ADD COLUMN top_5_poverty BOOLEAN DEFAULT FALSE," ++
      " ADD COLUMN top_5_unemployment BOOLEAN DEFAULT FALSE," ++
      " ADD COLUMN disadvantaged BOOLEAN DEFAULT FALSE",
    accepts := fun db => db.disadvantaged.isSome,
    run := fun db =>
      { db with disadvantaged := some ((db.disadvantaged.getD []).map
          dInitFlags) } },
  { text := "UPDATE " ++ quoteIdentifier disadvantagedTable ++
      " SET top_5_poverty = TRUE WHERE \"community_area\" IN (" ++
      " SELECT \"community_area\" FROM " ++ quoteIdentifier disadvantagedTable ++
      " ORDER BY \"below_poverty_level\" DESC LIMIT 5 )",
    accepts := fun db => db.disadvantaged.isSome,
    run := fun db =>
      let rows := db.disadvantaged.getD []
      let t5 := top5PovertyAreas rows
      { db with disadvantaged := some (rows.map
          (dSetTop5Poverty t5)) } },
  { text := "UPDATE " ++ quoteIdentifier disadvantagedTable ++
      " SET top_5_unemployment = TRUE WHERE \"community_area\" IN (" ++
      " SELECT \"community_area\" FROM " ++ quoteIdentifier disadvantagedTable ++
      " ORDER BY \"unemployment\" DESC LIMIT 5 )",
    accepts := fun db => db.disadvantaged.isSome,
    run := fun db =>
      let rows := db.disadvantaged.getD []
      let t5 := top5UnemploymentAreas rows
      { db with disadvantaged := some (rows.map
          (dSetTop5Unemployment t5)) } },
  { text := "UPDATE " ++ quoteIdentifier disadvantagedTable ++
      " SET disadvantaged = top_5_poverty OR top_5_unemployment",
    accepts := fun db => db.disadvantaged.isSome,
    run := fun db =>
      { db with disadvantaged := some ((db.disadvantaged.getD []).map
          dSetOrFlag) } },
  { text := "UPDATE " ++ quoteIdentifier disadvantagedPermitsTable ++
      " dp SET top_5_poverty = d.top_5_poverty, top_5_unemployment = d.top_5_unemployment," ++
      " disadvantaged = d.disadvantaged FROM " ++ quoteIdentifier disadvantagedTable ++
      " d WHERE dp.\"community_area\" = d.\"community_area\"",
    accepts := fun db => db.report_7_disadv_perm.isSome && db.disadvantaged.isSome,
    run := fun db =>
      let dRows := db.disadvantaged.getD []
      { db with report_7_disadv_perm := some ((db.report_7_disadv_perm.getD []).map
          (dpCopyFlags dRows)) } },
  { text := "ALTER TABLE " ++ quoteIdentifier disadvantagedPermitsTable ++
      " RENAME COLUMN disadvantaged TO waived_fee",
    accepts := fun db => db.report_7_disadv_perm.isSome,
    run := fun db => db }
]

/-- `ensurePostGISEnabled`: availability check before spatial DDL. -/
def ensurePostGISEnabled (env : ReportsEnv) : Option String :=
  if env.postgisAvailable then none
  else some ("postgis extension is not available on this database instance;" ++
    " please install it before generating the disadvantaged report")

/-- `populateDisadvantagedZipCodes`: clear the `zip_code` column, then
bulk-update it from the crosswalk by `d."community_area"::text`. -/
def populateDisadvantagedZipCodes (env : ReportsEnv) (db : DBState) :
    Except String DBState :=
  let db1 := { db with disadvantaged := db.disadvantaged.map (List.map dClearZip) }
  match env.crosswalk with
  | none => .error "failed to open community area zip code mapping"
  | some cmap =>
    if cmap.isEmpty then
      .error "no community area to zip code mappings were loaded"
    else
      .ok { db1 with disadvantaged := db1.disadvantaged.map (List.map
          (dZipFromCrosswalk cmap)) }

/-- `populatePermitZipCodes`: clear the `zip_code` column, then either
bulk-update it from the crosswalk by `bp."community_area"::text` (flag
off), or reverse-geocode each row with non-null coordinates (flag on;
geocoding errors skip the row, leaving the cleared empty string, and an
empty address list writes the empty string — the same value). -/
def populatePermitZipCodes (env : ReportsEnv) (db : DBState) :
    Except String DBState :=
  let db1 := { db with report_7_disadv_perm :=
      db.report_7_disadv_perm.map (List.map dpClearZip) }
  if !env.useGeocoding then
    match env.crosswalk with
    | none => .error "failed to open community area zip code mapping"
    | some cmap =>
      if cmap.isEmpty then
        .error "no community area to zip code mappings were loaded"
      else
        .ok { db1 with report_7_disadv_perm := db1.report_7_disadv_perm.map (List.map
            (dpZipFromCrosswalk cmap)) }
  else
    .ok { db1 with report_7_disadv_perm := db1.report_7_disadv_perm.map (List.map
        (dpZipFromGeocode env.geocodeZip)) }

/-- `CreateDisadvantagedReport` on an open connection: dependency checks
on `public_health` then `building_permits`, then one transaction running
the PostGIS check, the statement list and the two zip-code backfills;
any failure rolls the store back to its pre-call state. -/
def createDisadvantagedReportOn (env : ReportsEnv) (flt : Nat → Bool)
    (db : DBState) : DBState × Option String :=
  match ensureTableReady db publichealthTable with
  | some e => (db, some e)
  | none =>
    match ensureTableReady db buildingPermits with
    | some e => (db, some e)
    | none =>
      match ensurePostGISEnabled env with
      | some e => (db, some e)
      | none =>
        match runStmts (withFaults flt disadvStatements) db with
        | .error e => (db, some e)
        | .ok db2 =>
          match populateDisadvantagedZipCodes env db2 with
          | .error e => (db, some ("failed to populate disadvantaged zip codes: " ++ e))
          | .ok db3 =>
            match populatePermitZipCodes env db3 with
            | .error e => (db, some ("failed to populate zip codes: " ++ e))
            | .ok db4 => (db4, none)

/-- `CreateDisadvantagedReport(db *sql.DB)`: a `nil` handle is rejected
before anything runs. -/
def CreateDisadvantagedReport (env : ReportsEnv) (flt : Nat → Bool)
    (dbh : Option DBState) : Option DBState × Option String :=
  match dbh with
  | none => (none, some "db connection is nil")
  | some db =>
    let r := createDisadvantagedReportOn env flt db
    (some r.1, r.2)

/-! ## Readiness-gate polling loop (`WaitForTablesReady`) -/

/-- One pass of the per-poll readiness loop: the first failing table's
error (the loop `break`s at the first failure), `none` when all ready. -/
def firstNotReady (db : DBState) (tables : List String) : Option String :=
  (tables.filterMap (fun t => ensureTableReady db t)).head?

/-- The poll loop with the number of remaining ticks before the caller's
cancellation fires (the store is static in this model, so each poll sees
the same answer). -/
def waitPoll (db : DBState) (tables : List String) : Nat → Option String
  | 0 =>
    match firstNotReady db tables with
    | none => none
    | some e => some ("context canceled while waiting for tables: " ++ e)
  | n + 1 =>
    match firstNotReady db tables with
    | none => none
    | some _ => waitPoll db tables n

/-- `WaitForTablesReady`: `nil`-handle guard, empty table list succeeds
immediately, otherwise poll until ready or cancellation. -/
def WaitForTablesReady (dbh : Option DBState) (tables : List String)
    (fuel : Nat) : Option String :=
  match dbh with
  | none => some "db connection is nil"
  | some db =>
    if tables.isEmpty then none
    else waitPoll db tables fuel

/-! ## Pipeline characterisations and fixtures -/

/-- The committed effect of a fully successful
`CreateCovidCategoryReport` transaction. -/
def covidApply (db : DBState) : DBState := applyStmts covidStatements db

/-- The final per-row image of a `taxi_trips` row in
`req_1a_covid_alerts_drivers` (all alert-row statement effects composed,
with the final `covid_rep_cats` contents as join context). -/
def alertRowOfTrip (cats : List CovidRepCatRow) (t : TaxiTripRow) : AlertsRow :=
  alertsJoinDropoffCat cats (alertsJoinPickupCat cats (alertsInitDropoffCat
    (alertsInitPickupCat (alertsSetMonthStart (alertsInitMonthStart
    (alertsSetWeekStart (alertsInitWeekStart (alertsSetDay (alertsInitDay
    (alertsSetAirportPickup (alertsSetAirportDropoff (alertsInitAirportPickup
    (alertsInitAirportDropoff (alertsOfTripRow t))))))))))))))

/-- The `req_1a_covid_alerts_drivers` contents after the airport-flag and
time-bucket statements (the state the airport-count subqueries read). -/
def alertsMidRows (trips : List TaxiTripRow) : List AlertsRow :=
  (((((((((((trips.map alertsOfTripRow).map alertsInitAirportDropoff).map
    alertsInitAirportPickup).map alertsSetAirportDropoff).map
    alertsSetAirportPickup).map alertsInitDay).map alertsSetDay).map
    alertsInitWeekStart).map alertsSetWeekStart).map alertsInitMonthStart).map
    alertsSetMonthStart)

/-- The `req_1a_covid_alerts_drivers` contents at commit time, as the
statement loop leaves them. -/
def alertsFinalRows (cov : List CovidRow) (trips : List TaxiTripRow) :
    List AlertsRow :=
  (((((alertsMidRows trips).map alertsInitPickupCat).map alertsInitDropoffCat).map
    (alertsJoinPickupCat (repCatFinalRows cov))).map
    (alertsJoinDropoffCat (repCatFinalRows cov)))

/-- The full committed state of a successful `CreateCovidCategoryReport`
run, written out table by table. -/
def covidFinalState (db : DBState) : DBState :=
  let cov := db.covid.getD []
  let trips := db.taxi_trips.getD []
  let cats := repCatFinalRows cov
  let alerts := alertsFinalRows cov trips
  let mid := alertsMidRows trips
  let toGroups := groupCountBy (fun r => (r.pickup_zip_code, r.week_start))
    (mid.filter (fun r => r.airport_dropoff))
  let fromGroups := groupCountBy (fun r => (r.dropoff_zip_code, r.week_start))
    (mid.filter (fun r => r.airport_pickup))
  let wp := buildWeeklyPickup alerts
  let wd := buildWeeklyDropoff alerts
  { covid := db.covid
    taxi_trips := db.taxi_trips
    ccvi := db.ccvi
    public_health := db.public_health
    building_permits := db.building_permits
    covid_rep_cats := some cats
    req_1a_covid_alerts_drivers := some alerts
    req_1b_covid_alerts_residents := some (((((cats.map residentsOfRepCatRow).map
      resInitWeeklyDropoffs).map (resSetWeeklyDropoffs wd)).map
      resInitWeeklyPickups).map (resSetWeeklyPickups wp))
    req_2_airport_trips := some (List.insertionSort
      (fun a b => airportRowLe a b = true)
      ((((cats.map airportOfRepCatRow).map airportInitTo).map
        airportInitFrom).map (airportSetTo toGroups) |>.map
        (airportSetFrom fromGroups)))
    req_2_airport_trips_sorted := none
    req_3_ccvi_trips := some (List.insertionSort
      (fun a b => ccviTripsRowLe a b = true)
      (buildCcviTrips (db.ccvi.getD []) alerts))
    req_3_ccvi_trips_sorted := none
    req_4_daily_trips := some (buildDailyTrips alerts)
    req_4_weekly_trips := some (buildWeeklyTrips alerts)
    req_4_monthly_trips := some (buildMonthlyTrips alerts)
    weekly_trips_by_pickup_and_zip := some wp
    weekly_trips_by_dropoff_and_zip := some wd
    disadvantaged := db.disadvantaged
    report_7_disadv_perm := db.report_7_disadv_perm }

/-- The `disadvantaged` contents as the statement loop leaves them
(before the zip-code backfill). -/
def disadvRowsAfterStatements (ph : List PublicHealthRow) : List DisadvantagedRow :=
  let s2 := ((ph.map disadvantagedOfHealthRow).map dClearZip).map dInitFlags
  let s3 := s2.map (dSetTop5Poverty (top5PovertyAreas s2))
  let s4 := s3.map (dSetTop5Unemployment (top5UnemploymentAreas s3))
  s4.map dSetOrFlag

/-- The `report_7_disadv_perm` contents as the statement loop leaves them
(before the zip-code backfill). -/
def disadvPermRowsAfterStatements (bp : List BuildingPermitRow)
    (ph : List PublicHealthRow) : List DisadvPermRow :=
  (((((bp.map disadvPermOfPermitRow).map dpInitPoint).map dpClearZip).map
    dpSetPoint).map dpInitFlags).map (dpCopyFlags (disadvRowsAfterStatements ph))

/-- The full committed state of a successful `CreateDisadvantagedReport`
run, written out table by table. -/
def disadvFinalState (env : ReportsEnv) (db : DBState) : DBState :=
  let d5 := disadvRowsAfterStatements (db.public_health.getD [])
  let dp := disadvPermRowsAfterStatements (db.building_permits.getD [])
    (db.public_health.getD [])
  let cmap := env.crosswalk.getD []
  { db with
    disadvantaged := some ((d5.map dClearZip).map (dZipFromCrosswalk cmap))
    report_7_disadv_perm := some (if !env.useGeocoding then
        (dp.map dpClearZip).map (dpZipFromCrosswalk cmap)
      else
        (dp.map dpClearZip).map (dpZipFromGeocode env.geocodeZip)) }

/-- The committed effect of `populateDisadvantagedZipCodes` on success. -/
def populateDisadvTotal (cmap : List (Int × String)) (db : DBState) : DBState :=
  let db1 := { db with disadvantaged := db.disadvantaged.map (List.map dClearZip) }
  { db1 with disadvantaged := db1.disadvantaged.map (List.map (dZipFromCrosswalk cmap)) }

/-- The committed effect of `populatePermitZipCodes` on success. -/
def populatePermitTotal (env : ReportsEnv) (db : DBState) : DBState :=
  let db1 := { db with report_7_disadv_perm :=
      db.report_7_disadv_perm.map (List.map dpClearZip) }
  { db1 with report_7_disadv_perm := db1.report_7_disadv_perm.map (fun rows =>
      if !env.useGeocoding then
        rows.map (dpZipFromCrosswalk (env.crosswalk.getD []))
      else
        rows.map (dpZipFromGeocode env.geocodeZip)) }

/-- The committed effect of a fully successful
`CreateDisadvantagedReport` transaction. -/
def disadvApply (env : ReportsEnv) (db : DBState) : DBState :=
  populatePermitTotal env
    (populateDisadvTotal (env.crosswalk.getD []) (applyStmts disadvStatements db))

/-- The statement-loop error of the first failing statement: some prefix
succeeds, statement `i` fails on the state that prefix produced, and the
error message carries statement `i`'s text. -/
def namesFailingStatement (stmts : List SqlStmt) (db : DBState) (e : String) : Prop :=
  ∃ i, ∃ hi : i < stmts.length, ∃ dbi : DBState,
    runStmts (stmts.take i) db = .ok dbi ∧
    (stmts.get ⟨i, hi⟩).exec dbi = none ∧
    e = "failed to execute statement " ++ (stmts.get ⟨i, hi⟩).text

/-- The errors `CreateCovidCategoryReport` can return before its
transaction begins (readiness-gate failures, in check order). -/
def covidPreTxError (e : String) : Prop :=
  e = requiredTableMissingMsg covidTable ∨ e = requiredTableEmptyMsg covidTable ∨
  e = requiredTableMissingMsg taxiTripsTable ∨ e = requiredTableEmptyMsg taxiTripsTable ∨
  e = requiredTableMissingMsg ccviTable ∨ e = requiredTableEmptyMsg ccviTable

/-- The errors `CreateDisadvantagedReport` can return other than a
statement-loop failure: readiness-gate failures, the PostGIS capability
check, and the two wrapped zip-backfill failures. -/
def disadvNonStatementError (e : String) : Prop :=
  e = requiredTableMissingMsg publichealthTable ∨
  e = requiredTableEmptyMsg publichealthTable ∨
  e = requiredTableMissingMsg buildingPermits ∨
  e = requiredTableEmptyMsg buildingPermits ∨
  e = ("postgis extension is not available on this database instance;" ++
    " please install it before generating the disadvantaged report") ∨
  (∃ e2, e = "failed to populate disadvantaged zip codes: " ++ e2) ∨
  (∃ e2, e = "failed to populate zip codes: " ++ e2)

/-- Substring test on character lists (for stating that an error message
does not mention a table name). -/
def listContainsSub (needle : List Char) : List Char → Bool
  | [] => needle.isEmpty
  | c :: cs => hasPrefixList needle (c :: cs) || listContainsSub needle cs

/-- No injected engine faults. -/
def noFaults : Nat → Bool := fun _ => false

/-- An engine fault injected at statement index `k`. -/
def faultAt (k : Nat) : Nat → Bool := fun n => decide (n = k)

/-- A store with no tables at all. -/
def emptyDB : DBState :=
  { covid := none, taxi_trips := none, ccvi := none, public_health := none,
    building_permits := none, covid_rep_cats := none,
    req_1a_covid_alerts_drivers := none, req_1b_covid_alerts_residents := none,
    req_2_airport_trips := none, req_2_airport_trips_sorted := none,
    req_3_ccvi_trips := none, req_3_ccvi_trips_sorted := none,
    req_4_daily_trips := none, req_4_weekly_trips := none,
    req_4_monthly_trips := none, weekly_trips_by_pickup_and_zip := none,
    weekly_trips_by_dropoff_and_zip := none, disadvantaged := none,
    report_7_disadv_perm := none }

/-- A taxi trip on the given May 2024 day (2024-05-13 is a Monday). -/
def sampleTrip (i : Int) (d : Nat) (pz dz : Option String) : TaxiTripRow :=
  { id := i, trip_id := some ("trip" ++ toString i),
    trip_start_timestamp := some ⟨⟨2024, 5, d⟩, 0⟩,
    trip_end_timestamp := none, pickup_centroid_latitude := none,
    pickup_centroid_longitude := none, dropoff_centroid_latitude := none,
    dropoff_centroid_longitude := none, pickup_community_area := none,
    dropoff_community_area := none, pickup_zip_code := pz,
    dropoff_zip_code := dz, trip_type := none }

/-- Trips giving dropoff ZIP 60601 daily counts [10, 20, 30] on three
consecutive days, plus one airport-bound trip. -/
def sampleTrips : List TaxiTripRow :=
  ((List.range 10).map (fun i => sampleTrip i 13 (some "60601") (some "60601")))
  ++ ((List.range 20).map (fun i => sampleTrip (10 + i) 14 (some "60601") (some "60601")))
  ++ ((List.range 30).map (fun i => sampleTrip (30 + i) 15 (some "60601") (some "60601")))
  ++ [sampleTrip 60 13 (some "60601") (some "60666")]

def sampleCovidRows : List CovidRow :=
  [{ id := 1, zip_code := "60601", week_start := CivilDate.toDays ⟨2024, 5, 12⟩,
     week_end := CivilDate.toDays ⟨2024, 5, 18⟩, case_rate_weekly := some 42,
     percent_tested_positive_weekly := none },
   { id := 2, zip_code := "60602", week_start := CivilDate.toDays ⟨2024, 5, 12⟩,
     week_end := CivilDate.toDays ⟨2024, 5, 18⟩, case_rate_weekly := some (-1),
     percent_tested_positive_weekly := none }]

def sampleCcviRows : List CcviRow :=
  [{ id := 1, geography_type := some "ZIP", community_area_or_zip := some "60601",
     community_area_name := none, ccvi_score := some 60,
     ccvi_category := some "HIGH" }]

def samplePublicHealth : List PublicHealthRow :=
  [{ community_area := "1", below_poverty_level := some 10,
     unemployment := some 21, per_capita_income := some 30000 },
   { community_area := "2", below_poverty_level := some 20,
     unemployment := some 22, per_capita_income := some 28000 },
   { community_area := "3", below_poverty_level := some 30,
     unemployment := some 23, per_capita_income := some 26000 },
   { community_area := "4", below_poverty_level := some 40,
     unemployment := some 24, per_capita_income := some 24000 },
   { community_area := "5", below_poverty_level := some 50,
     unemployment := some 25, per_capita_income := some 22000 },
   { community_area := "6", below_poverty_level := some 5,
     unemployment := some 20, per_capita_income := some 32000 }]

def samplePermits : List BuildingPermitRow :=
  [{ id := "P1", permit_id := some "100001", permit_type := some "PERMIT - NEW",
     issue_date := some "2024-01-02", street_number := some "10",
     street_name := some "STATE ST", latitude := some 41, longitude := some (-87),
     community_area := some "5", census_tract := none },
   { id := "P2", permit_id := some "100002", permit_type := some "PERMIT - RENO",
     issue_date := some "2024-02-03", street_number := some "22",
     street_name := some "WACKER DR", latitude := none, longitude := none,
     community_area := none, census_tract := none }]

def sampleCrosswalk : List (Int × String) := [(5, "60615"), (1, "60601")]

def sampleEnv : ReportsEnv :=
  { useGeocoding := false, postgisAvailable := true,
    crosswalk := some sampleCrosswalk, geocodeZip := fun _ _ => none }

/-- A store with every source table present and non-empty. -/
def sampleDB : DBState :=
  { emptyDB with
    covid := some sampleCovidRows
    taxi_trips := some sampleTrips
    ccvi := some sampleCcviRows
    public_health := some samplePublicHealth
    building_permits := some samplePermits }

/-- A store whose `public_health` table exists but is empty. -/
def emptyPHDB : DBState := { emptyDB with public_health := some [] }

/-- The statement-failure message produced when statement index 3 of the
COVID builder (the category `UPDATE`) is made to fail. -/
def sampleCovidFaultMsg : String :=
  "failed to execute statement " ++ (covidStatements.get ⟨3, by decide⟩).text

/-! ## Helper lemmas -/

theorem isoDayOfWeek_mondayOnOrBefore (n : Int) :
    isoDayOfWeek (mondayOnOrBefore n) = 1 := by
  unfold isoDayOfWeek mondayOnOrBefore
  omega

theorem mondayOnOrBefore_le (n : Int) : mondayOnOrBefore n ≤ n := by
  unfold mondayOnOrBefore
  omega

theorem lt_mondayOnOrBefore_add_seven (n : Int) : n < mondayOnOrBefore n + 7 := by
  unfold mondayOnOrBefore
  omega

theorem replaceAllList_quote_eq_doubleQuotes (l : List Char) :
    replaceAllList ['"'] ['"', '"'] l = doubleQuotes l := by
  induction l with
  | nil => simp [replaceAllList, doubleQuotes]
  | cons c cs ih =>
    by_cases hc : c = '"'
    · subst hc
      rw [replaceAllList, doubleQuotes]
      simp [hasPrefixList, ih]
    · rw [replaceAllList, doubleQuotes]
      have hpre : hasPrefixList ['"'] (c :: cs) = false := by
        simp [hasPrefixList]
        exact fun h => hc h.symm
      simp [hpre, hc, ih]

theorem scanQuotedIdent_doubleQuotes (l : List Char) :
    scanQuotedIdent (doubleQuotes l ++ ['"']) = some (l, []) := by
  induction l with
  | nil => simp [doubleQuotes, scanQuotedIdent]
  | cons c cs ih =>
    by_cases hc : c = '"'
    · subst hc
      simp [doubleQuotes, scanQuotedIdent, ih]
    · have h2 : doubleQuotes (c :: cs) = c :: doubleQuotes cs := by
        simp [doubleQuotes, hc]
      rw [h2, List.cons_append, scanQuotedIdent]
      simp [hc, ih]

/-- `doubleQuotes` has a left inverse (the SQL scanner), hence is injective. -/
theorem doubleQuotes_injective : Function.Injective doubleQuotes := by
  intro a b hab
  have ha := scanQuotedIdent_doubleQuotes a
  rw [hab, scanQuotedIdent_doubleQuotes b] at ha
  exact (congrArg Prod.fst (Option.some.inj ha)).symm

theorem runStmts_ok_eq_applyStmts (stmts : List SqlStmt) (db db' : DBState)
    (h : runStmts stmts db = .ok db') : db' = applyStmts stmts db := by
  induction stmts generalizing db with
  | nil =>
    simp only [runStmts] at h
    cases h
    rfl
  | cons s rest ih =>
    simp only [runStmts, SqlStmt.exec] at h
    by_cases hacc : s.accepts db
    · simp only [hacc, if_true] at h
      exact ih (s.run db) h
    · simp [hacc] at h

theorem foldl_zip_snd {α β γ : Type} (f : γ → β → γ) :
    ∀ (ns : List α) (bs : List β) (c : γ), ns.length = bs.length →
      (ns.zip bs).foldl (fun x y => f x y.2) c = bs.foldl f c
  | [], [], _, _ => rfl
  | _ :: _, [], _, h => by simp at h
  | [], _ :: _, _, h => by simp at h
  | n :: ns, b :: bs, c, h => by
    simp only [List.zip_cons_cons, List.foldl_cons]
    exact foldl_zip_snd f ns bs (f c b) (by simpa using h)

theorem applyStmts_withFaults (flt : Nat → Bool) (stmts : List SqlStmt)
    (db : DBState) : applyStmts (withFaults flt stmts) db = applyStmts stmts db := by
  unfold applyStmts withFaults
  rw [List.foldl_map, List.enum_eq_zip_range]
  exact foldl_zip_snd (fun d s => s.run d) (List.range stmts.length) stmts db
    (by simp)

/-- A failing statement run identifies its first failing statement: some
prefix succeeds, the next statement fails, and the error carries that
statement's text. -/
theorem runStmts_error_names_failing (stmts : List SqlStmt) (db : DBState)
    (e : String) (h : runStmts stmts db = .error e) :
    ∃ i, ∃ hi : i < stmts.length, ∃ dbi : DBState,
      runStmts (stmts.take i) db = .ok dbi ∧
      (stmts.get ⟨i, hi⟩).exec dbi = none ∧
      e = "failed to execute statement " ++ (stmts.get ⟨i, hi⟩).text := by
  induction stmts generalizing db with
  | nil => simp [runStmts] at h
  | cons s rest ih =>
    simp only [runStmts] at h
    cases hex : s.exec db with
    | none =>
      rw [hex] at h
      refine ⟨0, by simp, db, by simp [runStmts], hex, ?_⟩
      cases h
      rfl
    | some db2 =>
      rw [hex] at h
      obtain ⟨i, hi, dbi, h1, h2, h3⟩ := ih db2 h
      exact ⟨i + 1, by simpa using hi, dbi, by simpa [runStmts, hex] using h1,
        h2, h3⟩

theorem createCovid_ok_eq (flt : Nat → Bool) (db db' : DBState)
    (h : createCovidCategoryReportOn flt db = (db', none)) : db' = covidApply db := by
  unfold createCovidCategoryReportOn at h
  cases h1 : ensureTableReady db covidTable with
  | some e => rw [h1] at h; simp at h
  | none =>
    rw [h1] at h
    cases h2 : ensureTableReady db taxiTripsTable with
    | some e => rw [h2] at h; simp at h
    | none =>
      rw [h2] at h
      cases h3 : ensureTableReady db ccviTable with
      | some e => rw [h3] at h; simp at h
      | none =>
        rw [h3] at h
        unfold runTx at h
        cases h4 : runStmts (withFaults flt covidStatements) db with
        | ok db2 =>
          rw [h4] at h
          simp only [Prod.mk.injEq] at h
          rw [← h.1, runStmts_ok_eq_applyStmts _ _ _ h4, covidApply,
            applyStmts_withFaults]
        | error e => rw [h4] at h; simp at h

theorem populateDisadv_ok_eq (env : ReportsEnv) (db db' : DBState)
    (h : populateDisadvantagedZipCodes env db = .ok db') :
    db' = populateDisadvTotal (env.crosswalk.getD []) db := by
  unfold populateDisadvantagedZipCodes at h
  cases hc : env.crosswalk with
  | none => rw [hc] at h; simp at h
  | some cmap =>
    rw [hc] at h
    by_cases he : cmap.isEmpty
    · simp only [he, if_true] at h
      simp at h
    · simp only [he, if_false, Bool.false_eq_true] at h
      simp only [Except.ok.injEq] at h
      subst h
      simp [populateDisadvTotal, hc]

theorem populatePermit_ok_eq (env : ReportsEnv) (db db' : DBState)
    (h : populatePermitZipCodes env db = .ok db') :
    db' = populatePermitTotal env db := by
  unfold populatePermitZipCodes at h
  unfold populatePermitTotal
  by_cases hg : env.useGeocoding
  · simp only [hg, Bool.not_true, if_false, Bool.false_eq_true] at h ⊢
    simp only [Except.ok.injEq] at h
    subst h
    rfl
  · simp only [hg, Bool.not_false, if_true] at h ⊢
    cases hc : env.crosswalk with
    | none => rw [hc] at h; simp at h
    | some cmap =>
      rw [hc] at h
      by_cases he : cmap.isEmpty
      · simp only [he, if_true] at h
        simp at h
      · simp only [he, if_false, Bool.false_eq_true] at h
        simp only [Except.ok.injEq] at h
        subst h
        simp [populatePermitTotal, hg, hc]

theorem createDisadv_ok_eq (env : ReportsEnv) (flt : Nat → Bool) (db db' : DBState)
    (h : createDisadvantagedReportOn env flt db = (db', none)) :
    db' = disadvApply env db := by
  unfold createDisadvantagedReportOn at h
  split at h
  · simp at h
  · split at h
    · simp at h
    · split at h
      · simp at h
      · split at h
        · simp at h
        · rename_i db2 h4
          split at h
          · simp at h
          · rename_i db3 h5
            split at h
            · simp at h
            · rename_i db4 h6
              simp only [Prod.mk.injEq] at h
              rw [← h.1, populatePermit_ok_eq env db3 db4 h6,
                populateDisadv_ok_eq env db2 db3 h5,
                runStmts_ok_eq_applyStmts _ _ _ h4, disadvApply,
                applyStmts_withFaults]

theorem covidApply_covid (db : DBState) : (covidApply db).covid = db.covid := rfl

theorem covidApply_taxi (db : DBState) : (covidApply db).taxi_trips = db.taxi_trips := rfl

theorem covidApply_ccvi (db : DBState) : (covidApply db).ccvi = db.ccvi := rfl

theorem covidApply_rep_cats (db : DBState) :
    (covidApply db).covid_rep_cats = some (repCatFinalRows (db.covid.getD [])) := rfl

theorem covidApply_alerts (db : DBState) :
    (covidApply db).req_1a_covid_alerts_drivers =
      some (alertsFinalRows (db.covid.getD []) (db.taxi_trips.getD [])) := rfl

theorem covidApply_daily (db : DBState) :
    (covidApply db).req_4_daily_trips =
      some (buildDailyTrips (alertsFinalRows (db.covid.getD []) (db.taxi_trips.getD []))) := rfl

theorem covidApply_weekly (db : DBState) :
    (covidApply db).req_4_weekly_trips =
      some (buildWeeklyTrips (alertsFinalRows (db.covid.getD []) (db.taxi_trips.getD []))) := rfl

theorem covidApply_monthly (db : DBState) :
    (covidApply db).req_4_monthly_trips =
      some (buildMonthlyTrips (alertsFinalRows (db.covid.getD []) (db.taxi_trips.getD []))) := rfl

theorem disadvApply_public_health (env : ReportsEnv) (db : DBState) :
    (disadvApply env db).public_health = db.public_health := rfl

theorem disadvApply_building_permits (env : ReportsEnv) (db : DBState) :
    (disadvApply env db).building_permits = db.building_permits := rfl

theorem disadvApply_disadv (env : ReportsEnv) (db : DBState) :
    (disadvApply env db).disadvantaged =
      some (((disadvRowsAfterStatements (db.public_health.getD [])).map dClearZip).map
        (dZipFromCrosswalk (env.crosswalk.getD []))) := rfl

theorem disadvApply_perm (env : ReportsEnv) (db : DBState) :
    (disadvApply env db).report_7_disadv_perm =
      some (if !env.useGeocoding then
          ((disadvPermRowsAfterStatements (db.building_permits.getD [])
            (db.public_health.getD [])).map dpClearZip).map
            (dpZipFromCrosswalk (env.crosswalk.getD []))
        else
          ((disadvPermRowsAfterStatements (db.building_permits.getD [])
            (db.public_health.getD [])).map dpClearZip).map
            (dpZipFromGeocode env.geocodeZip)) := rfl

theorem alertsFinalRows_eq_map (cov : List CovidRow) (trips : List TaxiTripRow) :
    alertsFinalRows cov trips = trips.map (alertRowOfTrip (repCatFinalRows cov)) := by
  unfold alertsFinalRows alertsMidRows alertRowOfTrip
  simp only [List.map_map]
  rfl

theorem repCatFinalRows_eq_map (cov : List CovidRow) :
    repCatFinalRows cov = cov.map (fun c =>
      { repCatOfCovidRow c with covid_cat := covidCatCase c.case_rate_weekly }) := by
  unfold repCatFinalRows
  simp only [List.map_map]
  rfl

theorem innerAlertRow_eq (t : TaxiTripRow) :
    alertsInitDropoffCat (alertsInitPickupCat (alertsSetMonthStart (alertsInitMonthStart
      (alertsSetWeekStart (alertsInitWeekStart (alertsSetDay (alertsInitDay
      (alertsSetAirportPickup (alertsSetAirportDropoff (alertsInitAirportPickup
      (alertsInitAirportDropoff (alertsOfTripRow t)))))))))))) =
    { id := t.id, trip_id := t.trip_id,
      trip_start_timestamp := t.trip_start_timestamp,
      trip_end_timestamp := t.trip_end_timestamp,
      pickup_centroid_latitude := t.pickup_centroid_latitude,
      pickup_centroid_longitude := t.pickup_centroid_longitude,
      dropoff_centroid_latitude := t.dropoff_centroid_latitude,
      dropoff_centroid_longitude := t.dropoff_centroid_longitude,
      pickup_community_area := t.pickup_community_area,
      dropoff_community_area := t.dropoff_community_area,
      pickup_zip_code := t.pickup_zip_code,
      dropoff_zip_code := t.dropoff_zip_code, trip_type := t.trip_type,
      airport_dropoff := zipInAirportSet t.dropoff_zip_code,
      airport_pickup := zipInAirportSet t.pickup_zip_code,
      day := t.trip_start_timestamp.map tsCastDate,
      week_start := t.trip_start_timestamp.map tsWeekStartCol,
      month_start := t.trip_start_timestamp.map tsMonthStartCol,
      pickup_covid_cat := none, dropoff_covid_cat := none } := by
  by_cases h1 : zipInAirportSet t.dropoff_zip_code <;>
    by_cases h2 : zipInAirportSet t.pickup_zip_code <;>
      simp [alertsOfTripRow, alertsInitAirportDropoff, alertsInitAirportPickup,
        alertsSetAirportDropoff, alertsSetAirportPickup, alertsInitDay,
        alertsSetDay, alertsInitWeekStart, alertsSetWeekStart,
        alertsInitMonthStart, alertsSetMonthStart, alertsInitPickupCat,
        alertsInitDropoffCat, h1, h2]

theorem alertRowOfTrip_core (cats : List CovidRepCatRow) (t : TaxiTripRow) :
    (alertRowOfTrip cats t).trip_start_timestamp = t.trip_start_timestamp ∧
    (alertRowOfTrip cats t).pickup_zip_code = t.pickup_zip_code ∧
    (alertRowOfTrip cats t).dropoff_zip_code = t.dropoff_zip_code ∧
    (alertRowOfTrip cats t).airport_dropoff = zipInAirportSet t.dropoff_zip_code ∧
    (alertRowOfTrip cats t).airport_pickup = zipInAirportSet t.pickup_zip_code ∧
    (alertRowOfTrip cats t).day = t.trip_start_timestamp.map tsCastDate ∧
    (alertRowOfTrip cats t).week_start = t.trip_start_timestamp.map tsWeekStartCol ∧
    (alertRowOfTrip cats t).month_start = t.trip_start_timestamp.map tsMonthStartCol := by
  unfold alertRowOfTrip
  rw [innerAlertRow_eq]
  unfold alertsJoinDropoffCat alertsJoinPickupCat
  split <;> split <;> simp

theorem countP_decide_eq_count {κ : Type} [DecidableEq κ] (xs : List κ) (k : κ) :
    xs.countP (fun x => decide (x = k)) = xs.count k := by
  unfold List.count
  apply List.countP_congr
  intro x _
  rw [Bool.eq_iff_iff]
  simp [beq_iff_eq]

theorem groupCountBy_filter_eq {α κ₁ κ₂ : Type} [DecidableEq κ₁] [DecidableEq κ₂]
    (key : α → κ₁ × κ₂) (xs : List α) (z : κ₁) :
    (groupCountBy key xs).filter (fun g => decide (g.1.1 = z)) =
      ((xs.map key).dedup.filter (fun k => decide (k.1 = z))).map
        (fun k => (k, xs.countP (fun x => decide (key x = k)))) := by
  unfold groupCountBy
  rw [List.filter_map]
  rfl

theorem groupCountBy_filter_sum {α κ₁ κ₂ : Type} [DecidableEq κ₁] [DecidableEq κ₂]
    (key : α → κ₁ × κ₂) (xs : List α) (z : κ₁) :
    (((groupCountBy key xs).filter (fun g => decide (g.1.1 = z))).map
        (fun g => g.2)).sum =
      xs.countP (fun x => decide ((key x).1 = z)) := by
  rw [groupCountBy_filter_eq, List.map_map]
  have h3 := List.sum_map_count_dedup_filter_eq_countP
    (fun k : κ₁ × κ₂ => decide (k.1 = z)) (xs.map key)
  rw [List.countP_map] at h3
  simp only [← countP_decide_eq_count] at h3
  refine Eq.trans ?_ h3
  apply congrArg List.sum
  apply List.map_congr_left
  intro k _
  simp only [Function.comp_apply]
  rw [List.countP_map]
  apply List.countP_congr
  intro x _
  rfl




theorem pair_dedup_filter_length {κ₁ κ₂ : Type} [DecidableEq κ₁] [DecidableEq κ₂]
    (l : List (κ₁ × κ₂)) (z : κ₁) :
    (l.dedup.filter (fun k => decide (k.1 = z))).length =
      ((l.filter (fun k => decide (k.1 = z))).map Prod.snd).dedup.length := by
  have hnd : (l.dedup.filter (fun k => decide (k.1 = z))).Nodup :=
    (List.nodup_dedup l).filter _
  rw [← List.toFinset_card_of_nodup hnd,
    ← List.toFinset_card_of_nodup (List.nodup_dedup _)]
  have hdt : ((l.filter (fun k => decide (k.1 = z))).map Prod.snd).dedup.toFinset =
      ((l.filter (fun k => decide (k.1 = z))).map Prod.snd).toFinset := by
    ext x
    simp [List.mem_dedup]
  have himg : ((l.filter (fun k => decide (k.1 = z))).map Prod.snd).toFinset =
      (l.filter (fun k => decide (k.1 = z))).toFinset.image Prod.snd := by
    ext x
    simp
  rw [hdt, himg]
  have hset : (l.dedup.filter (fun k => decide (k.1 = z))).toFinset =
      (l.filter (fun k => decide (k.1 = z))).toFinset := by
    ext k
    simp [List.mem_filter, List.mem_dedup]
  rw [hset]
  refine (Finset.card_image_of_injOn ?_).symm
  intro a ha b hb hab
  simp only [Finset.mem_coe, List.mem_toFinset, List.mem_filter] at ha hb
  have ha1 : a.1 = z := of_decide_eq_true ha.2
  have hb1 : b.1 = z := of_decide_eq_true hb.2
  exact Prod.ext (ha1.trans hb1.symm) hab

theorem groupCountBy_filter_length {α κ₁ κ₂ : Type} [DecidableEq κ₁] [DecidableEq κ₂]
    (key : α → κ₁ × κ₂) (xs : List α) (z : κ₁) :
    ((groupCountBy key xs).filter (fun g => decide (g.1.1 = z))).length =
      ((xs.filter (fun x => decide ((key x).1 = z))).map (fun x => (key x).2)).dedup.length := by
  rw [groupCountBy_filter_eq, List.length_map, pair_dedup_filter_length]
  have : ((xs.map key).filter (fun k => decide (k.1 = z))).map Prod.snd =
      (xs.filter (fun x => decide ((key x).1 = z))).map (fun x => (key x).2) := by
    rw [List.filter_map, List.map_map]
    rfl
  rw [this]

theorem countP_in_top5 {α κ : Type} [DecidableEq κ] (key : α → κ)
    (r : α → α → Prop) [DecidableRel r] (rows : List α)
    (hnd : (rows.map key).Nodup) (hlen : 5 ≤ rows.length) :
    rows.countP
      (fun x => (((List.insertionSort r rows).take 5).map key).contains (key x)) = 5 := by
  have hperm : List.Perm (List.insertionSort r rows) rows := List.perm_insertionSort r rows
  rw [← hperm.countP_eq]
  generalize hgen : List.insertionSort r rows = s at hperm ⊢
  have hsplit := List.take_append_drop 5 s
  have hlen5 : (s.take 5).length = 5 := by
    rw [List.length_take, hperm.length_eq]
    omega
  have hnds : (s.map key).Nodup := ((hperm.map key).nodup_iff).mpr hnd
  have happ : s.map key = (s.take 5).map key ++ (s.drop 5).map key := by
    rw [← List.map_append, hsplit]
  rw [happ] at hnds
  have hdisj := (List.nodup_append.mp hnds).2.2
  have h1 : (s.take 5).countP (fun x => ((s.take 5).map key).contains (key x)) = 5 := by
    rw [List.countP_eq_length.mpr, hlen5]
    intro x hx
    simpa using List.mem_map_of_mem key hx
  have h2 : (s.drop 5).countP (fun x => ((s.take 5).map key).contains (key x)) = 0 := by
    rw [List.countP_eq_zero]
    intro x hx hcont
    have hk1 : key x ∈ (s.take 5).map key := by simpa using hcont
    have hk2 : key x ∈ (s.drop 5).map key := List.mem_map_of_mem key hx
    exact hdisj hk1 hk2
  have hca := List.countP_append
    (fun x => ((s.take 5).map key).contains (key x)) (s.take 5) (s.drop 5)
  rw [hsplit] at hca
  rw [hca, h1, h2]

/-- **C10** (implicit nil-connection guard): for a nil database handle,
`CreateDisadvantagedReport`, `CreateCovidCategoryReport` and
`WaitForTablesReady` each return the non-nil "db connection is nil" error
immediately, executing no SQL statement, so no database state is touched. -/
theorem claim_C10_nil_guard :
    (∀ env flt, CreateDisadvantagedReport env flt none =
      (none, some "db connection is nil")) ∧
    (∀ flt, CreateCovidCategoryReport flt none =
      (none, some "db connection is nil")) ∧
    (∀ tables fuel, WaitForTablesReady none tables fuel =
      some "db connection is nil") :=
  ⟨fun _ _ => rfl, fun _ => rfl, fun _ _ => rfl⟩

/-- **C9** (identifier sanitizer): `quoteIdentifier name` is a double
quote, then `name` with every embedded double quote doubled, then a
closing double quote; the doubled interior lexes back as one quoted
identifier denoting exactly `name`, and `quoteIdentifier` is injective,
so distinct names cannot collide or escape the quoting. -/
theorem claim_C9_quote_identifier :
    (∀ name : String, quoteIdentifier name =
      String.mk ('"' :: doubleQuotes name.data ++ ['"'])) ∧
    (∀ name : String,
      scanQuotedIdent (doubleQuotes name.data ++ ['"']) = some (name.data, [])) ∧
    Function.Injective quoteIdentifier := by
  refine ⟨?_, ?_, ?_⟩
  · intro name
    unfold quoteIdentifier
    rw [replaceAllList_quote_eq_doubleQuotes]
  · intro name
    exact scanQuotedIdent_doubleQuotes name.data
  · intro a b hab
    unfold quoteIdentifier at hab
    have hd : '"' :: replaceAllList ['"'] ['"', '"'] a.data ++ ['"'] =
        '"' :: replaceAllList ['"'] ['"', '"'] b.data ++ ['"'] :=
      congrArg String.data hab
    rw [replaceAllList_quote_eq_doubleQuotes, replaceAllList_quote_eq_doubleQuotes] at hd
    have hd2 : doubleQuotes a.data = doubleQuotes b.data := by
      have := List.cons_injective.eq_iff.mp hd
      exact List.append_cancel_right this
    have hdata : a.data = b.data := doubleQuotes_injective hd2
    cases a with
    | mk la =>
      cases b with
      | mk lb => exact congrArg String.mk hdata

/-- **C6** (airport-proximity flag): after `CreateCovidCategoryReport`
succeeds, every row of the covid-alerts table has `airport_dropoff` true
iff its dropoff ZIP is in the fixed set {60666, 60656, 60665, 60638}, and
`airport_pickup` true iff its pickup ZIP is in that set. -/
theorem claim_C6_airport_flags (flt : Nat → Bool) (db db' : DBState)
    (arows : List AlertsRow)
    (hok : createCovidCategoryReportOn flt db = (db', none))
    (htab : db'.req_1a_covid_alerts_drivers = some arows) :
    ∀ r ∈ arows,
      r.airport_dropoff = zipInAirportSet r.dropoff_zip_code ∧
      r.airport_pickup = zipInAirportSet r.pickup_zip_code ∧
      (r.airport_dropoff = true ↔ ∃ z ∈ airportZipCodes, r.dropoff_zip_code = some z) ∧
      (r.airport_pickup = true ↔ ∃ z ∈ airportZipCodes, r.pickup_zip_code = some z) := by
  intro r hr
  rw [createCovid_ok_eq flt db db' hok, covidApply_alerts,
    alertsFinalRows_eq_map] at htab
  injection htab with htab
  subst htab
  obtain ⟨t, _ht, rfl⟩ := List.mem_map.mp hr
  obtain ⟨h1, h2, h3, h4, h5, _h6, _h7, _h8⟩ :=
    alertRowOfTrip_core (repCatFinalRows (db.covid.getD [])) t
  refine ⟨by rw [h4, h3], by rw [h5, h2], ?_, ?_⟩
  · rw [h4, h3]
    cases t.dropoff_zip_code with
    | none => simp [zipInAirportSet]
    | some z => simp [zipInAirportSet]
  · rw [h5, h2]
    cases t.pickup_zip_code with
    | none => simp [zipInAirportSet]
    | some z => simp [zipInAirportSet]

/-- **C7** (time-bucket derivation): after `CreateCovidCategoryReport`
succeeds, every alerts row has `day` equal to the calendar date of
`trip_start_timestamp`, `week_start` equal to the ISO (Monday-aligned)
week start of that timestamp minus the one-day offset the builder
subtracts, and `month_start` equal to the first day of the timestamp's
month; rows with a NULL timestamp have NULL buckets. -/
theorem claim_C7_time_buckets (flt : Nat → Bool) (db db' : DBState)
    (arows : List AlertsRow)
    (hok : createCovidCategoryReportOn flt db = (db', none))
    (htab : db'.req_1a_covid_alerts_drivers = some arows) :
    ∀ r ∈ arows,
      r.day = r.trip_start_timestamp.map tsCastDate ∧
      r.week_start = r.trip_start_timestamp.map tsWeekStartCol ∧
      r.month_start = r.trip_start_timestamp.map tsMonthStartCol ∧
      (∀ t, r.trip_start_timestamp = some t →
        r.day = some t.date.toDays ∧
        r.month_start = some (CivilDate.toDays ⟨t.date.year, t.date.month, 1⟩) ∧
        ∃ w, r.week_start = some w ∧ isoDayOfWeek (w + 1) = 1 ∧
          w + 1 ≤ t.date.toDays ∧ t.date.toDays < w + 1 + 7) := by
  intro r hr
  rw [createCovid_ok_eq flt db db' hok, covidApply_alerts,
    alertsFinalRows_eq_map] at htab
  injection htab with htab
  subst htab
  obtain ⟨t0, _ht, rfl⟩ := List.mem_map.mp hr
  obtain ⟨h1, _h2, _h3, _h4, _h5, h6, h7, h8⟩ :=
    alertRowOfTrip_core (repCatFinalRows (db.covid.getD [])) t0
  refine ⟨by rw [h6, h1], by rw [h7, h1], by rw [h8, h1], ?_⟩
  intro t ht
  rw [h1] at ht
  rw [h6, h7, h8, ht]
  refine ⟨rfl, rfl, mondayOnOrBefore t.date.toDays - 1, rfl, ?_, ?_, ?_⟩
  · have := isoDayOfWeek_mondayOnOrBefore t.date.toDays
    simpa using this
  · have := mondayOnOrBefore_le t.date.toDays
    omega
  · have := lt_mondayOnOrBefore_add_seven t.date.toDays
    omega






set_option maxRecDepth 100000 in
/-- **C6 witness**: on concrete data, a trip dropping off in ZIP 60666
gets `airport_dropoff = true` and one dropping off in 60601 gets
`airport_dropoff = false`. -/
theorem claim_C6_witness :
    (alertRowOfTrip (repCatFinalRows sampleCovidRows)
      (sampleTrip 60 13 (some "60601") (some "60666"))).airport_dropoff = true ∧
    (alertRowOfTrip (repCatFinalRows sampleCovidRows)
      (sampleTrip 0 13 (some "60601") (some "60601"))).airport_dropoff = false := by
  have h := claim_C6_airport_flags noFaults sampleDB (covidApply sampleDB)
    (alertsFinalRows (sampleDB.covid.getD []) (sampleDB.taxi_trips.getD []))
    rfl (covidApply_alerts sampleDB)
  have hm1 : alertRowOfTrip (repCatFinalRows sampleCovidRows)
      (sampleTrip 60 13 (some "60601") (some "60666")) ∈
      alertsFinalRows (sampleDB.covid.getD []) (sampleDB.taxi_trips.getD []) := by
    rw [alertsFinalRows_eq_map]
    exact List.mem_map_of_mem _ (by decide)
  have hm2 : alertRowOfTrip (repCatFinalRows sampleCovidRows)
      (sampleTrip 0 13 (some "60601") (some "60601")) ∈
      alertsFinalRows (sampleDB.covid.getD []) (sampleDB.taxi_trips.getD []) := by
    rw [alertsFinalRows_eq_map]
    exact List.mem_map_of_mem _ (by decide)
  refine ⟨?_, ?_⟩
  · have := (h _ hm1).1
    exact this.trans (by decide)
  · have := (h _ hm2).1
    exact this.trans (by decide)

set_option maxRecDepth 100000 in
/-- **C7 witness**: a trip starting 2024-05-13 (a Monday) gets
`day` 2024-05-13, `week_start` 2024-05-12 (the Sunday before) and
`month_start` 2024-05-01. -/
theorem claim_C7_witness :
    (alertRowOfTrip (repCatFinalRows sampleCovidRows)
      (sampleTrip 0 13 (some "60601") (some "60601"))).day =
        some (CivilDate.toDays ⟨2024, 5, 13⟩) ∧
    (alertRowOfTrip (repCatFinalRows sampleCovidRows)
      (sampleTrip 0 13 (some "60601") (some "60601"))).week_start =
        some (CivilDate.toDays ⟨2024, 5, 12⟩) ∧
    (alertRowOfTrip (repCatFinalRows sampleCovidRows)
      (sampleTrip 0 13 (some "60601") (some "60601"))).month_start =
        some (CivilDate.toDays ⟨2024, 5, 1⟩) := by
  have h := claim_C7_time_buckets noFaults sampleDB (covidApply sampleDB)
    (alertsFinalRows (sampleDB.covid.getD []) (sampleDB.taxi_trips.getD []))
    rfl (covidApply_alerts sampleDB)
  have hm : alertRowOfTrip (repCatFinalRows sampleCovidRows)
      (sampleTrip 0 13 (some "60601") (some "60601")) ∈
      alertsFinalRows (sampleDB.covid.getD []) (sampleDB.taxi_trips.getD []) := by
    rw [alertsFinalRows_eq_map]
    exact List.mem_map_of_mem _ (by decide)
  obtain ⟨hd, hw, hmo, _⟩ := h _ hm
  exact ⟨hd.trans (by decide), hw.trans (by decide), hmo.trans (by decide)⟩

/-- **C2 amended**: after `CreateCovidCategoryReport` succeeds, every
`covid_rep_cats` row with non-null `case_rate_weekly` has `covid_cat` in
{low, medium, high}, with low iff the rate is below 50 (negative rates
included), medium iff it is in [50, 100), and high iff it is at least
100; rows with a null rate have a null category. -/
theorem claim_C2_covid_bucket (flt : Nat → Bool) (db db' : DBState)
    (rows : List CovidRepCatRow)
    (hok : createCovidCategoryReportOn flt db = (db', none))
    (htab : db'.covid_rep_cats = some rows) :
    ∀ r ∈ rows,
      (r.case_rate_weekly = none → r.covid_cat = none) ∧
      (∀ x : ℚ, r.case_rate_weekly = some x →
        (r.covid_cat = some "low" ∨ r.covid_cat = some "medium" ∨
          r.covid_cat = some "high") ∧
        (r.covid_cat = some "low" ↔ x < 50) ∧
        (r.covid_cat = some "medium" ↔ 50 ≤ x ∧ x < 100) ∧
        (r.covid_cat = some "high" ↔ 100 ≤ x)) := by
  intro r hr
  rw [createCovid_ok_eq flt db db' hok, covidApply_rep_cats,
    repCatFinalRows_eq_map] at htab
  injection htab with htab
  subst htab
  obtain ⟨c, _hc, rfl⟩ := List.mem_map.mp hr
  constructor
  · intro h0
    have hc0 : c.case_rate_weekly = none := h0
    show covidCatCase c.case_rate_weekly = none
    rw [hc0]
    rfl
  · intro x hx
    have hcx : c.case_rate_weekly = some x := hx
    show _ ∧ _ ∧ _ ∧ _
    have hcat : ({ repCatOfCovidRow c with
        covid_cat := covidCatCase c.case_rate_weekly } : CovidRepCatRow).covid_cat =
        covidCatCase (some x) := by rw [← hcx]
    rw [hcat]
    have hcc : covidCatCase (some x) =
        if x < 50 then some "low"
        else if 50 ≤ x ∧ x < 100 then some "medium"
        else if 100 ≤ x then some "high"
        else none := rfl
    rw [hcc]
    split_ifs with hlt hmid hhi
    · refine ⟨Or.inl rfl, ⟨fun _ => hlt, fun _ => rfl⟩,
        ⟨fun h => absurd h (by decide), fun h => absurd hlt (by linarith [h.1])⟩,
        ⟨fun h => absurd h (by decide), fun h => absurd hlt (by linarith)⟩⟩
    · refine ⟨Or.inr (Or.inl rfl),
        ⟨fun h => absurd h (by decide), fun h => absurd h (by linarith [hmid.1])⟩,
        ⟨fun _ => hmid, fun _ => rfl⟩,
        ⟨fun h => absurd h (by decide), fun h => absurd h (by linarith [hmid.2])⟩⟩
    · refine ⟨Or.inr (Or.inr rfl),
        ⟨fun h => absurd h (by decide), fun h => absurd h (by linarith)⟩,
        ⟨fun h => absurd h (by decide), fun h => absurd h.2 (by linarith)⟩,
        ⟨fun _ => hhi, fun _ => rfl⟩⟩
    · have h50 : 50 ≤ x := not_lt.mp hlt
      have h100 : ¬x < 100 := fun hl => hmid ⟨h50, hl⟩
      exact absurd (not_lt.mp h100) hhi

set_option maxRecDepth 100000 in
/-- **C2 counterexample**: the claim as stated is false on the code — a
row with negative `case_rate_weekly` (here −1) receives `covid_cat =
'low'`, not NULL, because the first `CASE` branch `case_rate_weekly < 50`
also matches negative rates. -/
theorem claim_C2_counterexample :
    createCovidCategoryReportOn noFaults sampleDB = (covidApply sampleDB, none) ∧
    (covidApply sampleDB).covid_rep_cats = some (repCatFinalRows sampleCovidRows) ∧
    ((repCatFinalRows sampleCovidRows).get ⟨1, by decide⟩).case_rate_weekly =
      some (-1) ∧
    ((repCatFinalRows sampleCovidRows).get ⟨1, by decide⟩).covid_cat = some "low" ∧
    ((repCatFinalRows sampleCovidRows).get ⟨1, by decide⟩).covid_cat ≠ none := by
  refine ⟨rfl, rfl, by decide, by decide, by decide⟩

set_option maxRecDepth 100000 in
/-- **C2 witness**: on concrete data a rate of 42 lands in the low
bucket. -/
theorem claim_C2_witness :
    ((repCatFinalRows sampleCovidRows).get ⟨0, by decide⟩).covid_cat = some "low" := by
  have h := claim_C2_covid_bucket noFaults sampleDB (covidApply sampleDB)
    (repCatFinalRows (sampleDB.covid.getD [])) rfl (covidApply_rep_cats sampleDB)
  have hm : (repCatFinalRows sampleCovidRows).get ⟨0, by decide⟩ ∈
      repCatFinalRows (sampleDB.covid.getD []) := List.get_mem _ _ _
  obtain ⟨_, h2⟩ := h _ hm
  exact ((h2 42 (by decide)).2.1).mpr (by decide)

set_option maxHeartbeats 2000000 in
set_option maxRecDepth 10000 in
theorem covidApply_eq (db : DBState) : covidApply db = covidFinalState db := rfl

set_option maxHeartbeats 2000000 in
set_option maxRecDepth 10000 in
theorem disadvApply_eq (env : ReportsEnv) (db : DBState) :
    disadvApply env db = disadvFinalState env db := rfl

theorem covidApply_idem (db : DBState) :
    covidApply (covidApply db) = covidApply db := by
  rw [covidApply_eq db, covidApply_eq (covidFinalState db)]
  rfl

theorem disadvApply_idem (env : ReportsEnv) (db : DBState) :
    disadvApply env (disadvApply env db) = disadvApply env db := by
  rw [disadvApply_eq env db, disadvApply_eq env (disadvFinalState env db)]
  rfl

/-- **C8** (idempotent rebuild): two consecutive successful builder runs
over unchanged source tables leave the database — in particular every
target report table's contents — identical after the second run and the
first. -/
theorem claim_C8_idempotent_rebuild :
    (∀ flt flt2 db db1 db2,
      createCovidCategoryReportOn flt db = (db1, none) →
      createCovidCategoryReportOn flt2 db1 = (db2, none) → db2 = db1) ∧
    (∀ env flt flt2 db db1 db2,
      createDisadvantagedReportOn env flt db = (db1, none) →
      createDisadvantagedReportOn env flt2 db1 = (db2, none) → db2 = db1) := by
  constructor
  · intro flt flt2 db db1 db2 h1 h2
    have e1 := createCovid_ok_eq flt db db1 h1
    have e2 := createCovid_ok_eq flt2 db1 db2 h2
    rw [e2, e1, covidApply_idem, ← e1]
  · intro env flt flt2 db db1 db2 h1 h2
    have e1 := createDisadv_ok_eq env flt db db1 h1
    have e2 := createDisadv_ok_eq env flt2 db1 db2 h2
    rw [e2, e1, disadvApply_idem, ← e1]

set_option maxRecDepth 400000 in
/-- **C8 witness**: on concrete data both builders are idempotent: a
second run reproduces exactly the state of the first. -/
theorem claim_C8_witness :
    covidApply (covidApply sampleDB) = covidApply sampleDB ∧
    disadvApply sampleEnv (disadvApply sampleEnv sampleDB) =
      disadvApply sampleEnv sampleDB := by
  constructor
  · exact claim_C8_idempotent_rebuild.1 noFaults noFaults sampleDB
      (covidApply sampleDB) (covidApply (covidApply sampleDB)) rfl rfl
  · exact claim_C8_idempotent_rebuild.2 sampleEnv noFaults noFaults sampleDB
      (disadvApply sampleEnv sampleDB)
      (disadvApply sampleEnv (disadvApply sampleEnv sampleDB)) rfl rfl



theorem groupCountBy_map {α β κ : Type} [DecidableEq κ] (F : α → β) (key : β → κ)
    (l : List α) :
    groupCountBy key (l.map F) = groupCountBy (key ∘ F) l := by
  unfold groupCountBy
  rw [List.map_map]
  apply List.map_congr_left
  intro k _
  have h : (l.map F).countP (fun x => decide (key x = k)) =
      l.countP (fun x => decide ((key ∘ F) x = k)) := by
    rw [List.countP_map]
    rfl
  rw [h]

theorem groupCountBy_congr {α κ : Type} [DecidableEq κ] (k1 k2 : α → κ)
    (l : List α) (h : ∀ x ∈ l, k1 x = k2 x) :
    groupCountBy k1 l = groupCountBy k2 l := by
  unfold groupCountBy
  have hm : l.map k1 = l.map k2 := List.map_congr_left h
  rw [hm]
  apply List.map_congr_left
  intro k _
  have h2 : l.countP (fun x => decide (k1 x = k)) =
      l.countP (fun x => decide (k2 x = k)) := by
    apply List.countP_congr
    intro x hx
    rw [h x hx]
  rw [h2]

theorem groupCountBy_keys {α κ : Type} [DecidableEq κ] (key : α → κ) (l : List α) :
    (groupCountBy key l).map (fun g => g.1) = (l.map key).dedup := by
  unfold groupCountBy
  rw [List.map_map]
  exact List.map_id _

theorem map_filter_key_length {κ β : Type} [DecidableEq κ] [DecidableEq β]
    (zs : List κ) (hnd : zs.Nodup) (z : κ) (hz : z ∈ zs) (f : κ → β)
    (proj : β → κ) (hproj : ∀ y, proj (f y) = y) :
    ((zs.map f).filter (fun b => decide (proj b = z))).length = 1 := by
  rw [List.filter_map, List.length_map]
  have hfc : zs.filter ((fun b => decide (proj b = z)) ∘ f) =
      zs.filter (fun y => decide (y = z)) := by
    apply List.filter_congr
    intro y _
    simp only [Function.comp_apply, hproj y]
  rw [hfc, ← List.countP_eq_length_filter, countP_decide_eq_count]
  exact List.count_eq_one_of_mem hnd hz

theorem buildDailyTrips_spec (trips : List TaxiTripRow) (F : TaxiTripRow → AlertsRow)
    (hzip : ∀ t, (F t).dropoff_zip_code = t.dropoff_zip_code)
    (hday : ∀ t, (F t).day = t.trip_start_timestamp.map tsCastDate)
    (z : Option String) (hz : z ∈ trips.map (fun t => t.dropoff_zip_code)) :
    ((buildDailyTrips (trips.map F)).filter
        (fun dr => decide (dr.zip_code = z))).length = 1 ∧
    ∀ dr ∈ buildDailyTrips (trips.map F), dr.zip_code = z →
      dr.trips = ((trips.countP (fun t => decide (t.dropoff_zip_code = z))) : ℚ) /
        ((((trips.filter (fun t => decide (t.dropoff_zip_code = z))).map
          (fun t => t.trip_start_timestamp.map tsCastDate)).dedup.length : ℚ)) ∧
      dr.day = (sqlMax (trips.map
          (fun t => t.trip_start_timestamp.map tsCastDate))).map (fun n => n + 1) := by
  have hkey : groupCountBy (fun r : AlertsRow => (r.dropoff_zip_code, r.day)) (trips.map F)
      = groupCountBy
          (fun t : TaxiTripRow =>
            (t.dropoff_zip_code, t.trip_start_timestamp.map tsCastDate)) trips := by
    rw [groupCountBy_map]
    apply groupCountBy_congr
    intro t _
    simp only [Function.comp_apply]
    rw [hzip t, hday t]
  have hdays : (trips.map F).map (fun r : AlertsRow => r.day) =
      trips.map (fun t => t.trip_start_timestamp.map tsCastDate) := by
    rw [List.map_map]
    apply List.map_congr_left
    intro t _
    simp only [Function.comp_apply]
    exact hday t
  unfold buildDailyTrips
  rw [hkey, hdays]
  have hz' : ∃ t, t ∈ trips ∧ t.dropoff_zip_code = z := by
    simpa using hz
  obtain ⟨t0, ht0, hzt0⟩ := hz'
  have hzmem : z ∈ ((groupCountBy
      (fun t : TaxiTripRow => (t.dropoff_zip_code, t.trip_start_timestamp.map tsCastDate))
      trips).map (fun g => g.1.1)).dedup := by
    rw [List.mem_dedup]
    have hcomp : (fun (g : ((Option String × Option Int) × Nat)) => g.1.1) =
        (fun (k : Option String × Option Int) => k.1) ∘ (fun g => g.1) := rfl
    rw [hcomp, ← List.map_map, groupCountBy_keys, List.mem_map]
    refine ⟨(t0.dropoff_zip_code, t0.trip_start_timestamp.map tsCastDate), ?_, hzt0⟩
    rw [List.mem_dedup, List.mem_map]
    exact ⟨t0, ht0, rfl⟩
  refine ⟨?_, ?_⟩
  · exact map_filter_key_length _ (List.nodup_dedup _) z hzmem _
      DailyTripsRow.zip_code (fun y => rfl)
  · intro dr hdr hdrz
    obtain ⟨y, hy, rfl⟩ := List.mem_map.mp hdr
    have hyz : y = z := hdrz
    subst hyz
    refine ⟨?_, rfl⟩
    have hnum : ((((groupCountBy (fun t : TaxiTripRow =>
        (t.dropoff_zip_code, t.trip_start_timestamp.map tsCastDate)) trips).filter
        (fun g => decide (g.1.1 = y))).map (fun g => (g.2 : ℚ))).sum) =
        (((((groupCountBy (fun t : TaxiTripRow =>
        (t.dropoff_zip_code, t.trip_start_timestamp.map tsCastDate)) trips).filter
        (fun g => decide (g.1.1 = y))).map (fun g => g.2)).sum : ℕ) : ℚ) := by
      rw [Nat.cast_list_sum, List.map_map]
      exact rfl
    have hsum := groupCountBy_filter_sum
      (fun t : TaxiTripRow => (t.dropoff_zip_code, t.trip_start_timestamp.map tsCastDate))
      trips y
    have hlen := groupCountBy_filter_length
      (fun t : TaxiTripRow => (t.dropoff_zip_code, t.trip_start_timestamp.map tsCastDate))
      trips y
    show ((((groupCountBy (fun t : TaxiTripRow =>
        (t.dropoff_zip_code, t.trip_start_timestamp.map tsCastDate)) trips).filter
        (fun g => decide (g.1.1 = y))).map (fun g => (g.2 : ℚ))).sum) /
        ((((groupCountBy (fun t : TaxiTripRow =>
        (t.dropoff_zip_code, t.trip_start_timestamp.map tsCastDate)) trips).filter
        (fun g => decide (g.1.1 = y))).length : ℚ)) = _
    rw [hnum, hsum, hlen]

theorem buildWeeklyTrips_spec (trips : List TaxiTripRow) (F : TaxiTripRow → AlertsRow)
    (hzip : ∀ t, (F t).dropoff_zip_code = t.dropoff_zip_code)
    (hday : ∀ t, (F t).week_start = t.trip_start_timestamp.map tsWeekStartCol)
    (z : Option String) (hz : z ∈ trips.map (fun t => t.dropoff_zip_code)) :
    ((buildWeeklyTrips (trips.map F)).filter
        (fun dr => decide (dr.zip_code = z))).length = 1 ∧
    ∀ dr ∈ buildWeeklyTrips (trips.map F), dr.zip_code = z →
      dr.trips = ((trips.countP (fun t => decide (t.dropoff_zip_code = z))) : ℚ) /
        ((((trips.filter (fun t => decide (t.dropoff_zip_code = z))).map
          (fun t => t.trip_start_timestamp.map tsWeekStartCol)).dedup.length : ℚ)) ∧
      dr.week_start = (sqlMax (trips.map
          (fun t => t.trip_start_timestamp.map tsWeekStartCol))).map (fun n => n + 7) := by
  have hkey : groupCountBy (fun r : AlertsRow => (r.dropoff_zip_code, r.week_start)) (trips.map F)
      = groupCountBy
          (fun t : TaxiTripRow =>
            (t.dropoff_zip_code, t.trip_start_timestamp.map tsWeekStartCol)) trips := by
    rw [groupCountBy_map]
    apply groupCountBy_congr
    intro t _
    simp only [Function.comp_apply]
    rw [hzip t, hday t]
  have hdays : (trips.map F).map (fun r : AlertsRow => r.week_start) =
      trips.map (fun t => t.trip_start_timestamp.map tsWeekStartCol) := by
    rw [List.map_map]
    apply List.map_congr_left
    intro t _
    simp only [Function.comp_apply]
    exact hday t
  unfold buildWeeklyTrips
  rw [hkey, hdays]
  have hz' : ∃ t, t ∈ trips ∧ t.dropoff_zip_code = z := by
    simpa using hz
  obtain ⟨t0, ht0, hzt0⟩ := hz'
  have hzmem : z ∈ ((groupCountBy
      (fun t : TaxiTripRow => (t.dropoff_zip_code, t.trip_start_timestamp.map tsWeekStartCol))
      trips).map (fun g => g.1.1)).dedup := by
    rw [List.mem_dedup]
    have hcomp : (fun (g : ((Option String × Option Int) × Nat)) => g.1.1) =
        (fun (k : Option String × Option Int) => k.1) ∘ (fun g => g.1) := rfl
    rw [hcomp, ← List.map_map, groupCountBy_keys, List.mem_map]
    refine ⟨(t0.dropoff_zip_code, t0.trip_start_timestamp.map tsWeekStartCol), ?_, hzt0⟩
    rw [List.mem_dedup, List.mem_map]
    exact ⟨t0, ht0, rfl⟩
  refine ⟨?_, ?_⟩
  · exact map_filter_key_length _ (List.nodup_dedup _) z hzmem _
      WeeklyTripsRow.zip_code (fun y => rfl)
  · intro dr hdr hdrz
    obtain ⟨y, hy, rfl⟩ := List.mem_map.mp hdr
    have hyz : y = z := hdrz
    subst hyz
    refine ⟨?_, rfl⟩
    have hnum : ((((groupCountBy (fun t : TaxiTripRow =>
        (t.dropoff_zip_code, t.trip_start_timestamp.map tsWeekStartCol)) trips).filter
        (fun g => decide (g.1.1 = y))).map (fun g => (g.2 : ℚ))).sum) =
        (((((groupCountBy (fun t : TaxiTripRow =>
        (t.dropoff_zip_code, t.trip_start_timestamp.map tsWeekStartCol)) trips).filter
        (fun g => decide (g.1.1 = y))).map (fun g => g.2)).sum : ℕ) : ℚ) := by
      rw [Nat.cast_list_sum, List.map_map]
      exact rfl
    have hsum := groupCountBy_filter_sum
      (fun t : TaxiTripRow => (t.dropoff_zip_code, t.trip_start_timestamp.map tsWeekStartCol))
      trips y
    have hlen := groupCountBy_filter_length
      (fun t : TaxiTripRow => (t.dropoff_zip_code, t.trip_start_timestamp.map tsWeekStartCol))
      trips y
    show ((((groupCountBy (fun t : TaxiTripRow =>
        (t.dropoff_zip_code, t.trip_start_timestamp.map tsWeekStartCol)) trips).filter
        (fun g => decide (g.1.1 = y))).map (fun g => (g.2 : ℚ))).sum) /
        ((((groupCountBy (fun t : TaxiTripRow =>
        (t.dropoff_zip_code, t.trip_start_timestamp.map tsWeekStartCol)) trips).filter
        (fun g => decide (g.1.1 = y))).length : ℚ)) = _
    rw [hnum, hsum, hlen]

theorem buildMonthlyTrips_spec (trips : List TaxiTripRow) (F : TaxiTripRow → AlertsRow)
    (hzip : ∀ t, (F t).dropoff_zip_code = t.dropoff_zip_code)
    (hday : ∀ t, (F t).month_start = t.trip_start_timestamp.map tsMonthStartCol)
    (z : Option String) (hz : z ∈ trips.map (fun t => t.dropoff_zip_code)) :
    ((buildMonthlyTrips (trips.map F)).filter
        (fun dr => decide (dr.zip_code = z))).length = 1 ∧
    ∀ dr ∈ buildMonthlyTrips (trips.map F), dr.zip_code = z →
      dr.trips = ((trips.countP (fun t => decide (t.dropoff_zip_code = z))) : ℚ) /
        ((((trips.filter (fun t => decide (t.dropoff_zip_code = z))).map
          (fun t => t.trip_start_timestamp.map tsMonthStartCol)).dedup.length : ℚ)) ∧
      dr.month_start = (sqlMax (trips.map
          (fun t => t.trip_start_timestamp.map tsMonthStartCol))).map sqlAddOneMonth := by
  have hkey : groupCountBy (fun r : AlertsRow => (r.dropoff_zip_code, r.month_start)) (trips.map F)
      = groupCountBy
          (fun t : TaxiTripRow =>
            (t.dropoff_zip_code, t.trip_start_timestamp.map tsMonthStartCol)) trips := by
    rw [groupCountBy_map]
    apply groupCountBy_congr
    intro t _
    simp only [Function.comp_apply]
    rw [hzip t, hday t]
  have hdays : (trips.map F).map (fun r : AlertsRow => r.month_start) =
      trips.map (fun t => t.trip_start_timestamp.map tsMonthStartCol) := by
    rw [List.map_map]
    apply List.map_congr_left
    intro t _
    simp only [Function.comp_apply]
    exact hday t
  unfold buildMonthlyTrips
  rw [hkey, hdays]
  have hz' : ∃ t, t ∈ trips ∧ t.dropoff_zip_code = z := by
    simpa using hz
  obtain ⟨t0, ht0, hzt0⟩ := hz'
  have hzmem : z ∈ ((groupCountBy
      (fun t : TaxiTripRow => (t.dropoff_zip_code, t.trip_start_timestamp.map tsMonthStartCol))
      trips).map (fun g => g.1.1)).dedup := by
    rw [List.mem_dedup]
    have hcomp : (fun (g : ((Option String × Option Int) × Nat)) => g.1.1) =
        (fun (k : Option String × Option Int) => k.1) ∘ (fun g => g.1) := rfl
    rw [hcomp, ← List.map_map, groupCountBy_keys, List.mem_map]
    refine ⟨(t0.dropoff_zip_code, t0.trip_start_timestamp.map tsMonthStartCol), ?_, hzt0⟩
    rw [List.mem_dedup, List.mem_map]
    exact ⟨t0, ht0, rfl⟩
  refine ⟨?_, ?_⟩
  · exact map_filter_key_length _ (List.nodup_dedup _) z hzmem _
      MonthlyTripsRow.zip_code (fun y => rfl)
  · intro dr hdr hdrz
    obtain ⟨y, hy, rfl⟩ := List.mem_map.mp hdr
    have hyz : y = z := hdrz
    subst hyz
    refine ⟨?_, rfl⟩
    have hnum : ((((groupCountBy (fun t : TaxiTripRow =>
        (t.dropoff_zip_code, t.trip_start_timestamp.map tsMonthStartCol)) trips).filter
        (fun g => decide (g.1.1 = y))).map (fun g => (g.2 : ℚ))).sum) =
        (((((groupCountBy (fun t : TaxiTripRow =>
        (t.dropoff_zip_code, t.trip_start_timestamp.map tsMonthStartCol)) trips).filter
        (fun g => decide (g.1.1 = y))).map (fun g => g.2)).sum : ℕ) : ℚ) := by
      rw [Nat.cast_list_sum, List.map_map]
      exact rfl
    have hsum := groupCountBy_filter_sum
      (fun t : TaxiTripRow => (t.dropoff_zip_code, t.trip_start_timestamp.map tsMonthStartCol))
      trips y
    have hlen := groupCountBy_filter_length
      (fun t : TaxiTripRow => (t.dropoff_zip_code, t.trip_start_timestamp.map tsMonthStartCol))
      trips y
    show ((((groupCountBy (fun t : TaxiTripRow =>
        (t.dropoff_zip_code, t.trip_start_timestamp.map tsMonthStartCol)) trips).filter
        (fun g => decide (g.1.1 = y))).map (fun g => (g.2 : ℚ))).sum) /
        ((((groupCountBy (fun t : TaxiTripRow =>
        (t.dropoff_zip_code, t.trip_start_timestamp.map tsMonthStartCol)) trips).filter
        (fun g => decide (g.1.1 = y))).length : ℚ)) = _
    rw [hnum, hsum, hlen]


/-- **C4** (forward projection): when `CreateCovidCategoryReport`
succeeds, each of the daily, weekly and monthly trip-volume reports
holds, for each dropoff ZIP appearing in `taxi_trips`, exactly one row;
that row's `trips` value is the arithmetic mean of the ZIP's
trips-per-bucket over its observed buckets (total trip count divided by
the number of distinct observed bucket values), and its bucket label is
one unit (day / week / month) past the latest bucket observed in the
alerts table. -/
theorem claim_C4_forward_projection (flt : Nat → Bool) (db db' : DBState)
    (h : createCovidCategoryReportOn flt db = (db', none))
    (z : Option String)
    (hz : z ∈ (db.taxi_trips.getD []).map (fun t => t.dropoff_zip_code)) :
    (∃ rows : List DailyTripsRow, db'.req_4_daily_trips = some rows ∧
      (rows.filter (fun dr => decide (dr.zip_code = z))).length = 1 ∧
      ∀ dr ∈ rows, dr.zip_code = z →
        dr.trips = (((db.taxi_trips.getD []).countP
            (fun t => decide (t.dropoff_zip_code = z))) : ℚ) /
          (((((db.taxi_trips.getD []).filter
              (fun t => decide (t.dropoff_zip_code = z))).map
              (fun t => t.trip_start_timestamp.map tsCastDate)).dedup.length : ℚ)) ∧
        dr.day = (sqlMax ((db.taxi_trips.getD []).map
            (fun t => t.trip_start_timestamp.map tsCastDate))).map (fun n => n + 1)) ∧
    (∃ rows : List WeeklyTripsRow, db'.req_4_weekly_trips = some rows ∧
      (rows.filter (fun dr => decide (dr.zip_code = z))).length = 1 ∧
      ∀ dr ∈ rows, dr.zip_code = z →
        dr.trips = (((db.taxi_trips.getD []).countP
            (fun t => decide (t.dropoff_zip_code = z))) : ℚ) /
          (((((db.taxi_trips.getD []).filter
              (fun t => decide (t.dropoff_zip_code = z))).map
              (fun t => t.trip_start_timestamp.map tsWeekStartCol)).dedup.length : ℚ)) ∧
        dr.week_start = (sqlMax ((db.taxi_trips.getD []).map
            (fun t => t.trip_start_timestamp.map tsWeekStartCol))).map
            (fun n => n + 7)) ∧
    (∃ rows : List MonthlyTripsRow, db'.req_4_monthly_trips = some rows ∧
      (rows.filter (fun dr => decide (dr.zip_code = z))).length = 1 ∧
      ∀ dr ∈ rows, dr.zip_code = z →
        dr.trips = (((db.taxi_trips.getD []).countP
            (fun t => decide (t.dropoff_zip_code = z))) : ℚ) /
          (((((db.taxi_trips.getD []).filter
              (fun t => decide (t.dropoff_zip_code = z))).map
              (fun t => t.trip_start_timestamp.map tsMonthStartCol)).dedup.length : ℚ)) ∧
        dr.month_start = (sqlMax ((db.taxi_trips.getD []).map
            (fun t => t.trip_start_timestamp.map tsMonthStartCol))).map
            sqlAddOneMonth) := by
  have hdb := createCovid_ok_eq flt db db' h
  subst hdb
  refine ⟨⟨_, covidApply_daily db, ?_⟩, ⟨_, covidApply_weekly db, ?_⟩,
    ⟨_, covidApply_monthly db, ?_⟩⟩
  · rw [alertsFinalRows_eq_map]
    exact buildDailyTrips_spec (db.taxi_trips.getD [])
      (alertRowOfTrip (repCatFinalRows (db.covid.getD [])))
      (fun t => (alertRowOfTrip_core _ t).2.2.1)
      (fun t => (alertRowOfTrip_core _ t).2.2.2.2.2.1)
      z hz
  · rw [alertsFinalRows_eq_map]
    exact buildWeeklyTrips_spec (db.taxi_trips.getD [])
      (alertRowOfTrip (repCatFinalRows (db.covid.getD [])))
      (fun t => (alertRowOfTrip_core _ t).2.2.1)
      (fun t => (alertRowOfTrip_core _ t).2.2.2.2.2.2.1)
      z hz
  · rw [alertsFinalRows_eq_map]
    exact buildMonthlyTrips_spec (db.taxi_trips.getD [])
      (alertRowOfTrip (repCatFinalRows (db.covid.getD [])))
      (fun t => (alertRowOfTrip_core _ t).2.2.1)
      (fun t => (alertRowOfTrip_core _ t).2.2.2.2.2.2.2)
      z hz

set_option maxRecDepth 200000 in
/-- **C4 witness**: on concrete data where ZIP 60601 has daily dropoff
counts [10, 20, 30] on 2024-05-13..15 (and the latest day overall is
2024-05-15), its single daily-report row has `trips = 20` (the
arithmetic mean) and `day = 2024-05-16` (one day past the latest
observed day). -/
theorem claim_C4_witness :
    ∃ rows : List DailyTripsRow,
      (covidApply sampleDB).req_4_daily_trips = some rows ∧
      (rows.filter (fun dr => decide (dr.zip_code = some "60601"))).length = 1 ∧
      ∀ dr ∈ rows, dr.zip_code = some "60601" →
        dr.trips = 20 ∧ dr.day = some (CivilDate.toDays ⟨2024, 5, 16⟩) := by
  have h := (claim_C4_forward_projection noFaults sampleDB (covidApply sampleDB)
    rfl (some "60601") (by decide)).1
  obtain ⟨rows, h1, h2, h3⟩ := h
  refine ⟨rows, h1, h2, ?_⟩
  intro dr hdr hzz
  obtain ⟨ht, hd⟩ := h3 dr hdr hzz
  have hc : (sampleDB.taxi_trips.getD []).countP
      (fun t => decide (t.dropoff_zip_code = some "60601")) = 60 := by decide
  have hl : ((((sampleDB.taxi_trips.getD []).filter
      (fun t => decide (t.dropoff_zip_code = some "60601"))).map
      (fun t => t.trip_start_timestamp.map tsCastDate)).dedup.length) = 3 := by decide
  have hm : (sqlMax ((sampleDB.taxi_trips.getD []).map
      (fun t => t.trip_start_timestamp.map tsCastDate))).map (fun n => n + 1) =
      some (CivilDate.toDays ⟨2024, 5, 16⟩) := by decide
  rw [ht, hd, hc, hl, hm]
  exact ⟨by norm_num, rfl⟩


theorem dClearZip_fields (r : DisadvantagedRow) :
    (dClearZip r).community_area = r.community_area ∧
    (dClearZip r).top_5_poverty = r.top_5_poverty ∧
    (dClearZip r).top_5_unemployment = r.top_5_unemployment ∧
    (dClearZip r).disadvantaged = r.disadvantaged := ⟨rfl, rfl, rfl, rfl⟩

theorem dZipFromCrosswalk_fields (cmap : List (Int × String)) (r : DisadvantagedRow) :
    (dZipFromCrosswalk cmap r).community_area = r.community_area ∧
    (dZipFromCrosswalk cmap r).top_5_poverty = r.top_5_poverty ∧
    (dZipFromCrosswalk cmap r).top_5_unemployment = r.top_5_unemployment ∧
    (dZipFromCrosswalk cmap r).disadvantaged = r.disadvantaged := by
  unfold dZipFromCrosswalk
  split <;> exact ⟨rfl, rfl, rfl, rfl⟩

theorem dSetTop5Poverty_fields (t5 : List String) (r : DisadvantagedRow) :
    (dSetTop5Poverty t5 r).community_area = r.community_area ∧
    (dSetTop5Poverty t5 r).top_5_poverty =
      (r.top_5_poverty || t5.contains r.community_area) ∧
    (dSetTop5Poverty t5 r).top_5_unemployment = r.top_5_unemployment := by
  unfold dSetTop5Poverty
  split
  · rename_i hcond
    refine ⟨rfl, ?_, rfl⟩
    rw [hcond, Bool.or_true]
  · rename_i hcond
    refine ⟨rfl, ?_, rfl⟩
    rw [Bool.not_eq_true] at hcond
    rw [hcond, Bool.or_false]

theorem dSetTop5Unemployment_fields (t5 : List String) (r : DisadvantagedRow) :
    (dSetTop5Unemployment t5 r).community_area = r.community_area ∧
    (dSetTop5Unemployment t5 r).top_5_poverty = r.top_5_poverty ∧
    (dSetTop5Unemployment t5 r).top_5_unemployment =
      (r.top_5_unemployment || t5.contains r.community_area) := by
  unfold dSetTop5Unemployment
  split
  · rename_i hcond
    refine ⟨rfl, rfl, ?_⟩
    rw [hcond, Bool.or_true]
  · rename_i hcond
    refine ⟨rfl, rfl, ?_⟩
    rw [Bool.not_eq_true] at hcond
    rw [hcond, Bool.or_false]

theorem dSetOrFlag_fields (r : DisadvantagedRow) :
    (dSetOrFlag r).community_area = r.community_area ∧
    (dSetOrFlag r).top_5_poverty = r.top_5_poverty ∧
    (dSetOrFlag r).top_5_unemployment = r.top_5_unemployment ∧
    (dSetOrFlag r).disadvantaged = (r.top_5_poverty || r.top_5_unemployment) :=
  ⟨rfl, rfl, rfl, rfl⟩

theorem dpZipFromCrosswalk_fields (cmap : List (Int × String)) (p : DisadvPermRow) :
    (dpZipFromCrosswalk cmap p).community_area = p.community_area ∧
    (dpZipFromCrosswalk cmap p).top_5_poverty = p.top_5_poverty ∧
    (dpZipFromCrosswalk cmap p).top_5_unemployment = p.top_5_unemployment ∧
    (dpZipFromCrosswalk cmap p).waived_fee = p.waived_fee := by
  unfold dpZipFromCrosswalk
  split
  · split <;> exact ⟨rfl, rfl, rfl, rfl⟩
  · exact ⟨rfl, rfl, rfl, rfl⟩

theorem dpZipFromGeocode_fields (g : ℚ → ℚ → Option String) (p : DisadvPermRow) :
    (dpZipFromGeocode g p).community_area = p.community_area ∧
    (dpZipFromGeocode g p).top_5_poverty = p.top_5_poverty ∧
    (dpZipFromGeocode g p).top_5_unemployment = p.top_5_unemployment ∧
    (dpZipFromGeocode g p).waived_fee = p.waived_fee := by
  unfold dpZipFromGeocode
  split <;> exact ⟨rfl, rfl, rfl, rfl⟩

theorem dpCopyFlags_area (l : List DisadvantagedRow) (p : DisadvPermRow) :
    (dpCopyFlags l p).community_area = p.community_area := by
  unfold dpCopyFlags
  split <;> rfl

theorem disadvRows_or_invariant (ph : List PublicHealthRow) (cmap : List (Int × String)) :
    ∀ r ∈ ((disadvRowsAfterStatements ph).map dClearZip).map (dZipFromCrosswalk cmap),
      r.disadvantaged = (r.top_5_poverty || r.top_5_unemployment) := by
  intro r hr
  rw [List.mem_map] at hr
  obtain ⟨r1, hr1, rfl⟩ := hr
  rw [List.mem_map] at hr1
  obtain ⟨r2, hr2, rfl⟩ := hr1
  simp only [disadvRowsAfterStatements, List.mem_map] at hr2
  obtain ⟨r3, _, rfl⟩ := hr2
  obtain ⟨hc, hp, hu, hd⟩ := dZipFromCrosswalk_fields cmap (dClearZip (dSetOrFlag r3))
  rw [hd, hp, hu]
  rfl

theorem disadvFinal_top5pov_count (ph : List PublicHealthRow) (cmap : List (Int × String))
    (hnd : (ph.map (fun x => x.community_area)).Nodup) (hlen : 5 ≤ ph.length) :
    ((((disadvRowsAfterStatements ph).map dClearZip).map
      (dZipFromCrosswalk cmap)).countP (fun r => r.top_5_poverty)) = 5 := by
  have hs2nd : ((((ph.map disadvantagedOfHealthRow).map dClearZip).map dInitFlags).map
      (fun r : DisadvantagedRow => r.community_area)).Nodup := by
    have he : (((ph.map disadvantagedOfHealthRow).map dClearZip).map dInitFlags).map
        (fun r : DisadvantagedRow => r.community_area) =
        ph.map (fun x => x.community_area) := by
      simp only [List.map_map]
      rfl
    rw [he]
    exact hnd
  have hs2len : 5 ≤ (((ph.map disadvantagedOfHealthRow).map dClearZip).map
      dInitFlags).length := by
    simp only [List.length_map]
    exact hlen
  have h2 := countP_in_top5 (fun r : DisadvantagedRow => r.community_area)
    (fun a b => descNullsFirstLe a.below_poverty_level b.below_poverty_level = true)
    (((ph.map disadvantagedOfHealthRow).map dClearZip).map dInitFlags) hs2nd hs2len
  simp only [List.countP_map] at h2
  simp only [disadvRowsAfterStatements, List.countP_map]
  rw [← h2]
  apply List.countP_congr
  intro x _
  simp only [Function.comp_apply]
  rw [(dZipFromCrosswalk_fields _ _).2.1, (dClearZip_fields _).2.1,
    (dSetOrFlag_fields _).2.1, (dSetTop5Unemployment_fields _ _).2.1,
    (dSetTop5Poverty_fields _ _).2.1]
  have hb : (dInitFlags (dClearZip (disadvantagedOfHealthRow x))).top_5_poverty =
      false := rfl
  rw [hb, Bool.false_or]
  exact Iff.rfl

theorem disadvFinal_area_map (ph : List PublicHealthRow) (cmap : List (Int × String)) :
    ((((disadvRowsAfterStatements ph).map dClearZip).map
      (dZipFromCrosswalk cmap)).map (fun r => r.community_area)) =
      ph.map (fun x => x.community_area) := by
  simp only [disadvRowsAfterStatements, List.map_map]
  apply List.map_congr_left
  intro x _
  simp only [Function.comp_apply]
  rw [(dZipFromCrosswalk_fields _ _).1, (dClearZip_fields _).1,
    (dSetOrFlag_fields _).1, (dSetTop5Unemployment_fields _ _).1,
    (dSetTop5Poverty_fields _ _).1]
  rfl

theorem disadvFinal_top5pov_dedup (ph : List PublicHealthRow) (cmap : List (Int × String))
    (hnd : (ph.map (fun x => x.community_area)).Nodup) (hlen : 5 ≤ ph.length) :
    ((((((disadvRowsAfterStatements ph).map dClearZip).map
      (dZipFromCrosswalk cmap)).filter (fun r => r.top_5_poverty)).map
      (fun r => r.community_area)).dedup.length) = 5 := by
  have hmnd : ((((disadvRowsAfterStatements ph).map dClearZip).map
      (dZipFromCrosswalk cmap)).map (fun r => r.community_area)).Nodup := by
    rw [disadvFinal_area_map]
    exact hnd
  have hsub : ((((((disadvRowsAfterStatements ph).map dClearZip).map
      (dZipFromCrosswalk cmap)).filter (fun r => r.top_5_poverty)).map
      (fun r => r.community_area))).Sublist
      ((((disadvRowsAfterStatements ph).map dClearZip).map
      (dZipFromCrosswalk cmap)).map (fun r => r.community_area)) :=
    List.Sublist.map _ (List.filter_sublist _)
  have hfnd := hsub.nodup hmnd
  rw [List.dedup_eq_self.mpr hfnd, List.length_map, ← List.countP_eq_length_filter]
  exact disadvFinal_top5pov_count ph cmap hnd hlen

theorem dpFlagsCopiedGen (bp : List BuildingPermitRow) (ph : List PublicHealthRow)
    (cmap : List (Int × String)) (zf : DisadvPermRow → DisadvPermRow)
    (hzf : ∀ p, (zf p).community_area = p.community_area ∧
      (zf p).top_5_poverty = p.top_5_poverty ∧
      (zf p).top_5_unemployment = p.top_5_unemployment ∧
      (zf p).waived_fee = p.waived_fee) :
    ∀ q ∈ ((disadvPermRowsAfterStatements bp ph).map dpClearZip).map zf,
      match (((disadvRowsAfterStatements ph).map dClearZip).map
          (dZipFromCrosswalk cmap)).find?
          (fun d => sqlEq q.community_area (some d.community_area)) with
      | some d => q.top_5_poverty = d.top_5_poverty ∧
          q.top_5_unemployment = d.top_5_unemployment ∧
          q.waived_fee = d.disadvantaged
      | none => q.top_5_poverty = false ∧ q.top_5_unemployment = false ∧
          q.waived_fee = false := by
  intro q hq
  rw [List.mem_map] at hq
  obtain ⟨q1, hq1, rfl⟩ := hq
  rw [List.mem_map] at hq1
  obtain ⟨p5, hp5, rfl⟩ := hq1
  simp only [disadvPermRowsAfterStatements, List.mem_map] at hp5
  obtain ⟨p0, hp0, rfl⟩ := hp5
  obtain ⟨p1, _, rfl⟩ := hp0
  obtain ⟨hzc, hzp, hzu, hzw⟩ :=
    hzf (dpClearZip (dpCopyFlags (disadvRowsAfterStatements ph) (dpInitFlags p1)))
  rw [hzp, hzu, hzw]
  have hqa : (zf (dpClearZip (dpCopyFlags (disadvRowsAfterStatements ph)
      (dpInitFlags p1)))).community_area = (dpInitFlags p1).community_area := by
    rw [hzc]
    exact dpCopyFlags_area _ _
  rw [hqa]
  have hpe : ((fun d : DisadvantagedRow =>
      sqlEq (dpInitFlags p1).community_area (some d.community_area)) ∘
      (dZipFromCrosswalk cmap)) ∘ dClearZip =
      (fun d : DisadvantagedRow =>
        sqlEq (dpInitFlags p1).community_area (some d.community_area)) := by
    funext d
    simp only [Function.comp_apply]
    rw [(dZipFromCrosswalk_fields cmap (dClearZip d)).1]
    rfl
  have hfind : (((disadvRowsAfterStatements ph).map dClearZip).map
      (dZipFromCrosswalk cmap)).find?
      (fun d => sqlEq (dpInitFlags p1).community_area (some d.community_area)) =
      ((disadvRowsAfterStatements ph).find?
        (fun d => sqlEq (dpInitFlags p1).community_area
          (some d.community_area))).map
        (fun d => dZipFromCrosswalk cmap (dClearZip d)) := by
    rw [List.find?_map, List.find?_map, Option.map_map, hpe]
    exact rfl
  rw [hfind]
  cases h5 : (disadvRowsAfterStatements ph).find?
      (fun d => sqlEq (dpInitFlags p1).community_area (some d.community_area)) with
  | none =>
    simp only [Option.map_none']
    have hcp : dpCopyFlags (disadvRowsAfterStatements ph) (dpInitFlags p1) =
        dpInitFlags p1 := by
      unfold dpCopyFlags
      rw [h5]
    rw [hcp]
    exact ⟨rfl, rfl, rfl⟩
  | some d =>
    simp only [Option.map_some']
    have hcp : dpCopyFlags (disadvRowsAfterStatements ph) (dpInitFlags p1) =
        { dpInitFlags p1 with
          top_5_poverty := d.top_5_poverty
          top_5_unemployment := d.top_5_unemployment
          waived_fee := d.disadvantaged } := by
      unfold dpCopyFlags
      rw [h5]
    rw [hcp]
    refine ⟨?_, ?_, ?_⟩
    · rw [(dZipFromCrosswalk_fields cmap (dClearZip d)).2.1]
      rfl
    · rw [(dZipFromCrosswalk_fields cmap (dClearZip d)).2.2.1]
      rfl
    · rw [(dZipFromCrosswalk_fields cmap (dClearZip d)).2.2.2]
      rfl

/-- **C3** (disadvantaged flags): when `CreateDisadvantagedReport`
succeeds, every row of the `disadvantaged` table satisfies
`disadvantaged = top_5_poverty OR top_5_unemployment`; when the source
`public_health` rows carry pairwise-distinct community areas and number
at least 5, exactly 5 distinct community areas have
`top_5_poverty = true`; and the three flags of every
disadvantaged-permits report row are those of the `disadvantaged` row
joined on community area (all false when no row matches), never
recomputed independently. -/
theorem claim_C3_disadvantaged_flags (env : ReportsEnv) (flt : Nat → Bool)
    (db db' : DBState)
    (h : createDisadvantagedReportOn env flt db = (db', none)) :
    ∃ dRows pRows, db'.disadvantaged = some dRows ∧
      db'.report_7_disadv_perm = some pRows ∧
      (∀ r ∈ dRows, r.disadvantaged = (r.top_5_poverty || r.top_5_unemployment)) ∧
      (((db.public_health.getD []).map (fun x => x.community_area)).Nodup →
        5 ≤ (db.public_health.getD []).length →
        ((dRows.filter (fun r => r.top_5_poverty)).map
          (fun r => r.community_area)).dedup.length = 5) ∧
      (∀ q ∈ pRows,
        match dRows.find? (fun d => sqlEq q.community_area (some d.community_area)) with
        | some d => q.top_5_poverty = d.top_5_poverty ∧
            q.top_5_unemployment = d.top_5_unemployment ∧
            q.waived_fee = d.disadvantaged
        | none => q.top_5_poverty = false ∧ q.top_5_unemployment = false ∧
            q.waived_fee = false) := by
  have hdb := createDisadv_ok_eq env flt db db' h
  subst hdb
  refine ⟨_, _, disadvApply_disadv env db, disadvApply_perm env db, ?_, ?_, ?_⟩
  · exact disadvRows_or_invariant _ _
  · intro hnd hlen
    exact disadvFinal_top5pov_dedup _ _ hnd hlen
  · intro q hq
    cases hg : env.useGeocoding with
    | true =>
      rw [hg] at hq
      simp only [Bool.not_true, Bool.false_eq_true, if_false] at hq
      exact dpFlagsCopiedGen _ _ _ _
        (fun p => dpZipFromGeocode_fields env.geocodeZip p) q hq
    | false =>
      rw [hg] at hq
      simp only [Bool.not_false, if_true] at hq
      exact dpFlagsCopiedGen _ _ _ _
        (fun p => dpZipFromCrosswalk_fields (env.crosswalk.getD []) p) q hq

set_option maxRecDepth 200000 in
/-- **C3 witness**: on concrete data (six public-health areas with
distinct poverty and unemployment figures), the OR invariant holds on
every `disadvantaged` row, exactly 5 community areas carry
`top_5_poverty = true`, and every permits-report row carries the flags
of its community-area-joined `disadvantaged` row. -/
theorem claim_C3_witness :
    ∃ dRows pRows,
      (disadvApply sampleEnv sampleDB).disadvantaged = some dRows ∧
      (disadvApply sampleEnv sampleDB).report_7_disadv_perm = some pRows ∧
      (∀ r ∈ dRows, r.disadvantaged = (r.top_5_poverty || r.top_5_unemployment)) ∧
      ((dRows.filter (fun r => r.top_5_poverty)).map
        (fun r => r.community_area)).dedup.length = 5 ∧
      (∀ q ∈ pRows,
        match dRows.find? (fun d => sqlEq q.community_area (some d.community_area)) with
        | some d => q.top_5_poverty = d.top_5_poverty ∧
            q.top_5_unemployment = d.top_5_unemployment ∧
            q.waived_fee = d.disadvantaged
        | none => q.top_5_poverty = false ∧ q.top_5_unemployment = false ∧
            q.waived_fee = false) := by
  obtain ⟨dRows, pRows, h1, h2, h3, h4, h5⟩ :=
    claim_C3_disadvantaged_flags sampleEnv noFaults sampleDB
      (disadvApply sampleEnv sampleDB) rfl
  exact ⟨dRows, pRows, h1, h2, h3, h4 (by decide) (by decide), h5⟩

theorem ensureTableReady_some (db : DBState) (n e : String)
    (h : ensureTableReady db n = some e) :
    e = requiredTableMissingMsg n ∨ e = requiredTableEmptyMsg n := by
  unfold ensureTableReady at h
  cases htc : db.tableCount n with
  | none =>
    rw [htc] at h
    exact Or.inl (Option.some.inj h).symm
  | some k =>
    rw [htc] at h
    cases k with
    | zero => exact Or.inr (Option.some.inj h).symm
    | succ m => simp at h

theorem ensurePostGIS_some (env : ReportsEnv) (e : String)
    (h : ensurePostGISEnabled env = some e) :
    e = ("postgis extension is not available on this database instance;" ++
      " please install it before generating the disadvantaged report") := by
  unfold ensurePostGISEnabled at h
  by_cases hp : env.postgisAvailable
  · simp [hp] at h
  · simp [hp] at h
    exact h.symm

/-- **C1** (atomicity of a builder run): whenever either builder returns
an error, the database is exactly its pre-call state — no partial column
additions or partial rewrites persist, target tables keep the prior run's
contents or absence — and an error produced inside the transaction names
the first failing statement by its full text (the remaining errors are
the enumerated pre-transaction and backfill failures). -/
theorem claim_C1_builder_atomicity :
    (∀ flt db db' e, createCovidCategoryReportOn flt db = (db', some e) →
      db' = db ∧ (covidPreTxError e ∨
        namesFailingStatement (withFaults flt covidStatements) db e)) ∧
    (∀ env flt db db' e, createDisadvantagedReportOn env flt db = (db', some e) →
      db' = db ∧ (disadvNonStatementError e ∨
        namesFailingStatement (withFaults flt disadvStatements) db e)) := by
  constructor
  · intro flt db db' e h
    unfold createCovidCategoryReportOn at h
    split at h
    · rename_i e0 h1
      simp only [Prod.mk.injEq, Option.some.injEq] at h
      refine ⟨h.1.symm, Or.inl ?_⟩
      rcases ensureTableReady_some db covidTable e0 h1 with h2 | h2 <;>
        rw [← h.2, h2]
      · exact Or.inl rfl
      · exact Or.inr (Or.inl rfl)
    · split at h
      · rename_i e0 h1
        simp only [Prod.mk.injEq, Option.some.injEq] at h
        refine ⟨h.1.symm, Or.inl ?_⟩
        rcases ensureTableReady_some db taxiTripsTable e0 h1 with h2 | h2 <;>
          rw [← h.2, h2]
        · exact Or.inr (Or.inr (Or.inl rfl))
        · exact Or.inr (Or.inr (Or.inr (Or.inl rfl)))
      · split at h
        · rename_i e0 h1
          simp only [Prod.mk.injEq, Option.some.injEq] at h
          refine ⟨h.1.symm, Or.inl ?_⟩
          rcases ensureTableReady_some db ccviTable e0 h1 with h2 | h2 <;>
            rw [← h.2, h2]
          · exact Or.inr (Or.inr (Or.inr (Or.inr (Or.inl rfl))))
          · exact Or.inr (Or.inr (Or.inr (Or.inr (Or.inr rfl))))
        · unfold runTx at h
          split at h
          · simp at h
          · rename_i e0 h4
            simp only [Prod.mk.injEq, Option.some.injEq] at h
            refine ⟨h.1.symm, Or.inr ?_⟩
            rw [← h.2]
            exact runStmts_error_names_failing _ db e0 h4
  · intro env flt db db' e h
    unfold createDisadvantagedReportOn at h
    split at h
    · rename_i e0 h1
      simp only [Prod.mk.injEq, Option.some.injEq] at h
      refine ⟨h.1.symm, Or.inl ?_⟩
      rcases ensureTableReady_some db publichealthTable e0 h1 with h2 | h2 <;>
        rw [← h.2, h2]
      · exact Or.inl rfl
      · exact Or.inr (Or.inl rfl)
    · split at h
      · rename_i e0 h1
        simp only [Prod.mk.injEq, Option.some.injEq] at h
        refine ⟨h.1.symm, Or.inl ?_⟩
        rcases ensureTableReady_some db buildingPermits e0 h1 with h2 | h2 <;>
          rw [← h.2, h2]
        · exact Or.inr (Or.inr (Or.inl rfl))
        · exact Or.inr (Or.inr (Or.inr (Or.inl rfl)))
      · split at h
        · rename_i e0 h1
          simp only [Prod.mk.injEq, Option.some.injEq] at h
          refine ⟨h.1.symm, Or.inl ?_⟩
          rw [← h.2, ensurePostGIS_some env e0 h1]
          exact Or.inr (Or.inr (Or.inr (Or.inr (Or.inl rfl))))
        · split at h
          · rename_i e0 h4
            simp only [Prod.mk.injEq, Option.some.injEq] at h
            refine ⟨h.1.symm, Or.inr ?_⟩
            rw [← h.2]
            exact runStmts_error_names_failing _ db e0 h4
          · rename_i db2 h4
            split at h
            · rename_i e0 h5
              simp only [Prod.mk.injEq, Option.some.injEq] at h
              refine ⟨h.1.symm, Or.inl ?_⟩
              refine Or.inr (Or.inr (Or.inr (Or.inr (Or.inr (Or.inl ⟨e0, ?_⟩)))))
              exact h.2.symm
            · rename_i db3 h5
              split at h
              · rename_i e0 h6
                simp only [Prod.mk.injEq, Option.some.injEq] at h
                refine ⟨h.1.symm, Or.inl ?_⟩
                exact Or.inr (Or.inr (Or.inr (Or.inr (Or.inr (Or.inr ⟨e0, h.2.symm⟩)))))
              · simp at h

set_option maxRecDepth 100000 in
/-- **C1 witness**: injecting a fault at statement 3 of the COVID builder
leaves the store exactly as before the call, and the returned error
carries that statement's text. -/
theorem claim_C1_witness :
    sampleDB = sampleDB ∧ (covidPreTxError sampleCovidFaultMsg ∨
      namesFailingStatement (withFaults (faultAt 3) covidStatements) sampleDB
        sampleCovidFaultMsg) :=
  claim_C1_builder_atomicity.1 (faultAt 3) sampleDB sampleDB
    sampleCovidFaultMsg rfl

/-- **C5 counterexample**: with both `public_health` and
`building_permits` missing, the builder's error names only
`public_health` — the claim's instance for `building_permits` ("an error
whose message names that table") fails: the message neither equals a
readiness message for `building_permits` nor even contains that name. -/
theorem claim_C5_counterexample :
    emptyDB.building_permits = none ∧
    createDisadvantagedReportOn sampleEnv noFaults emptyDB =
      (emptyDB, some (requiredTableMissingMsg publichealthTable)) ∧
    requiredTableMissingMsg publichealthTable ≠
      requiredTableMissingMsg buildingPermits ∧
    requiredTableMissingMsg publichealthTable ≠
      requiredTableEmptyMsg buildingPermits ∧
    listContainsSub buildingPermits.data
      (requiredTableMissingMsg publichealthTable).data = false := by
  exact ⟨rfl, rfl, by decide, by decide, by decide⟩

/-- **C5 amended** (dependency fail-fast): each builder checks its
dependencies in a fixed order (`covid`, `taxi_trips`, `ccvi`;
`public_health`, `building_permits`) before beginning its transaction;
if a table is the first not-ready dependency in that order, the builder
returns with the store untouched and an error naming that table (so a
sole not-ready dependency — in particular an empty `public_health` — is
always named). -/
theorem claim_C5_dependency_failfast :
    (∀ flt db e, ensureTableReady db covidTable = some e →
      createCovidCategoryReportOn flt db = (db, some e)) ∧
    (∀ flt db e, ensureTableReady db covidTable = none →
      ensureTableReady db taxiTripsTable = some e →
      createCovidCategoryReportOn flt db = (db, some e)) ∧
    (∀ flt db e, ensureTableReady db covidTable = none →
      ensureTableReady db taxiTripsTable = none →
      ensureTableReady db ccviTable = some e →
      createCovidCategoryReportOn flt db = (db, some e)) ∧
    (∀ env flt db e, ensureTableReady db publichealthTable = some e →
      createDisadvantagedReportOn env flt db = (db, some e)) ∧
    (∀ env flt db e, ensureTableReady db publichealthTable = none →
      ensureTableReady db buildingPermits = some e →
      createDisadvantagedReportOn env flt db = (db, some e)) ∧
    (∀ db n e, ensureTableReady db n = some e →
      e = requiredTableMissingMsg n ∨ e = requiredTableEmptyMsg n) := by
  refine ⟨?_, ?_, ?_, ?_, ?_, ensureTableReady_some⟩
  · intro flt db e h1
    unfold createCovidCategoryReportOn
    rw [h1]
  · intro flt db e h1 h2
    unfold createCovidCategoryReportOn
    rw [h1, h2]
  · intro flt db e h1 h2 h3
    unfold createCovidCategoryReportOn
    rw [h1, h2, h3]
  · intro env flt db e h1
    unfold createDisadvantagedReportOn
    rw [h1]
  · intro env flt db e h1 h2
    unfold createDisadvantagedReportOn
    rw [h1, h2]

/-- **C5 witness**: an existing but empty `public_health` stops the
disadvantaged builder with the error naming `public_health`, store
untouched. -/
theorem claim_C5_witness :
    createDisadvantagedReportOn sampleEnv noFaults emptyPHDB =
      (emptyPHDB, some (requiredTableEmptyMsg publichealthTable)) :=
  claim_C5_dependency_failfast.2.2.2.1 sampleEnv noFaults emptyPHDB
    (requiredTableEmptyMsg publichealthTable) rfl

end ChicagoBI
